import Mathlib

/-!
Verification of libairptp: handle facade, presence beacon and daemon core.

A shallow embedding of `src/airptp.c`, `src/daemon.c` and `src/utils.c`.

* C structures become Lean structures with the source's field names.
* A pointer and the object it points to are merged: `none` is `NULL`, `some x` is a
  pointer to an object in state `x`.
* The process and operating-system state the code acts on (descriptor table, bound
  sockets, the named shared-memory region, the control pipe, the worker thread) is an
  explicit `World` passed through every function, together with the chronological
  list of system and library calls that were made.
* The outcome of every system or library call that the code checks is supplied by an
  environment record, so that each theorem quantifies over all outcomes.
* The worker thread is sequentialised: `pthread_create` runs the set-up part of `run`
  up to `event_base_dispatch`; `pthread_join` lets a worker that sits in the event
  loop handle the control byte (`exit_cb`) and run the tear-down part of `run`.
-/

namespace AirPtp

/-! ## Constants and plain data -/

/-- Constants declared in `airptp_internal.h`, which is not among the sources; they are
taken as parameters of the model. -/
structure Consts where
  AIRPTP_SHM_STRUCTS_VERSION_MAJOR : Nat
  AIRPTP_SHM_STRUCTS_VERSION_MINOR : Nat
  AIRPTP_SHM_STALE_SECS : Int
  AIRPTP_INTERVAL_MS_ANNOUNCE : Nat
  AIRPTP_INTERVAL_MS_SIGNALING : Nat
  AIRPTP_INTERVAL_MS_SYNC : Nat
deriving DecidableEq, Repr

/-- The event port, `PTP_EVENT_PORT`: 319 by the comment on `airptp_daemon_bind` in
`include/airptp.h`. -/
def PTP_EVENT_PORT : Nat := 319

/-- The general port, `PTP_GENERAL_PORT`: 320 by the same comment. -/
def PTP_GENERAL_PORT : Nat := 320

/-- The interval of the beacon refresh timer, `DAEMON_INTERVAL_SECS_SHM_UPDATE`. -/
def DAEMON_INTERVAL_SECS_SHM_UPDATE : Nat := 5

/-- Modelled from the spec: `enum airptp_state` of the absent `airptp_internal.h`, with
the four states the spec lists for the handle, in its order (`calloc` yields the
first one). -/
inductive airptp_state where
  | UNBOUND
  | PORTS_BOUND
  | RUNNING
  | STOPPED
deriving DecidableEq, Repr

/-- The record `struct airptp_shm_struct` kept in the shared region. Field widths are
those the spec gives: `u16`, `u16`, `u64` and a signed 64-bit time stamp. -/
structure airptp_shm_struct where
  version_major : Nat
  version_minor : Nat
  clock_id : Nat
  ts : Int
deriving DecidableEq, Repr

/-- A `struct timeval`. -/
structure timeval where
  tv_sec : Nat
  tv_usec : Nat
deriving DecidableEq, Repr

/-- The object behind a `struct event *` of libevent: whether `event_add` has made it
pending (and with which timeout), and whether `event_free` has been called on it. -/
structure event where
  pending : Option (Option timeval)
  freed : Bool
deriving DecidableEq, Repr

/-- The object behind a `struct event_base *`: how often `event_base_free` has been
called on it. -/
structure event_base where
  free_count : Nat
deriving DecidableEq, Repr

/-- The values the pointer `daemon->info` takes: `NULL` (from `calloc`), `MAP_FAILED`
(set by `daemon_start`) or a mapping of the shared region. -/
inductive shm_ptr where
  | NULL
  | MAP_FAILED
  | mapped
deriving DecidableEq, Repr

/-- The callbacks a daemon uses: the facade's `dummy_cb` or the caller's structure. -/
inductive callbacks where
  | dummy_cb
  | user (id : Nat)
deriving DecidableEq, Repr

/-- The `struct airptp_service`: port, bound socket and readiness registration. -/
structure airptp_service where
  port : Nat
  fd : Int
  ev : Option event
deriving DecidableEq, Repr

/-- The `struct airptp_daemon`, with the fields `daemon.c` and `airptp.c` use. -/
structure airptp_daemon where
  event_svc : airptp_service
  general_svc : airptp_service
  exit_pipe : Int × Int
  info : shm_ptr
  is_shared : Bool
  clock_id : Nat
  cb : Option callbacks
  evbase : Option event_base
  tid : Nat
  is_running : Bool
  exit_ev : Option event
  shm_update_timer : Option event
  send_announce_timer : Option event
  send_signaling_timer : Option event
  send_sync_timer : Option event
  num_slaves : Nat
deriving DecidableEq, Repr

/-- The `struct airptp_handle`. -/
structure airptp_handle where
  state : airptp_state
  is_daemon : Bool
  clock_id : Nat
  daemon : airptp_daemon
deriving DecidableEq, Repr

/-- What `calloc(1, sizeof(struct airptp_handle))` yields: every field zero. -/
def calloc_handle : airptp_handle :=
  { state := airptp_state.UNBOUND
    is_daemon := false
    clock_id := 0
    daemon :=
      { event_svc := { port := 0, fd := 0, ev := none }
        general_svc := { port := 0, fd := 0, ev := none }
        exit_pipe := (0, 0)
        info := shm_ptr.NULL
        is_shared := false
        clock_id := 0
        cb := none
        evbase := none
        tid := 0
        is_running := false
        exit_ev := none
        shm_update_timer := none
        send_announce_timer := none
        send_signaling_timer := none
        send_sync_timer := none
        num_slaves := 0 } }

/-! ## The world: descriptors, shared region, worker thread, call log -/

/-- System and library calls with an effect outside the daemon structure, as logged. -/
inductive Call where
  | msg_handle_init
  | pipe
  | event_base_new
  | event_base_free
  | pthread_create
  | pthread_join
  | write (fd : Int)
  | read (fd : Int)
  | socket
  | bind (fd : Int) (port : Nat)
  | close (fd : Int)
  | shm_open_create
  | shm_open_rdonly
  | ftruncate (fd : Int)
  | mmap (fd : Int)
  | munmap
  | shm_unlink
  | free_handle
  | msg_announce_send
  | msg_signaling_send
  | msg_sync_send
deriving DecidableEq, Repr

/-- The state of the worker thread of the daemon: never created, inside
`event_base_dispatch` (with the local `shm_fd` of `run`), returned from `run` but not
joined, or joined. -/
inductive Worker where
  | none
  | looping (shm_fd : Int)
  | exited
  | joined
deriving DecidableEq, Repr

/-- The state outside the handle. `shm` is the content of the region named
`AIRPTP_SHM_NAME`, when it exists; `pipe_bytes` the bytes waiting in the control pipe. -/
structure World where
  open_fds : List Int
  bound : List (Int × Nat)
  shm : Option airptp_shm_struct
  pipe_bytes : Nat
  worker : Worker
  trace : List Call
deriving DecidableEq, Repr

/-- Append a call to the log. -/
def World.log (w : World) (c : Call) : World :=
  { w with trace := w.trace ++ [c] }

/-- Search for the lowest descriptor number not in use, starting at `c`. -/
def lowest_free_from : Nat → List Int → Int → Int
  | 0, _, c => c
  | fuel + 1, used, c =>
    if c ∈ used then lowest_free_from fuel (used.filter (fun x => x ≠ c)) (c + 1) else c

/-- The descriptor a successful `socket`, `pipe` or `shm_open` returns: the lowest
number that is not open. -/
def lowest_free (used : List Int) : Int :=
  lowest_free_from used.length used 0

/-- Open a new descriptor. -/
def World.open_fd (w : World) : Int × World :=
  (lowest_free w.open_fds, { w with open_fds := lowest_free w.open_fds :: w.open_fds })

/-- The call `close(fd)`: afterwards `fd` is not open and no socket is bound on it. -/
def World.close (w : World) (fd : Int) : World :=
  { w with
    open_fds := w.open_fds.filter (fun x => x ≠ fd)
    bound := w.bound.filter (fun p => p.1 ≠ fd)
    trace := w.trace ++ [Call.close fd] }

/-! ## Port binder (`utils.c`) -/

/-- One candidate address of the list `getaddrinfo` returns, together with the results
of the calls `net_bind` makes while trying it. -/
structure addrinfo where
  ai_family_is_inet6 : Bool
  socket_ok : Bool
  fcntl_getfl : Int
  fcntl_setfl : Int
  setsockopt_keepalive : Int
  setsockopt_reuseaddr : Int
  setsockopt_v6only : Int
  bind_ret : Int
deriving DecidableEq, Repr

/-- The result of `getaddrinfo` in `net_bind`: its return value (0 on success, a
non-zero error code otherwise: negative on glibc, positive on macOS and the BSDs) and,
for a success, the list it stores in `servinfo`. On a failure the variable `servinfo`
is left as it was, that is, uninitialised. -/
structure NetBindEnv where
  getaddrinfo_ret : Int
  servinfo : List addrinfo
deriving DecidableEq, Repr

/-- A descriptor (or `-1`) and the world after the call. -/
structure FdResult where
  fd : Int
  world : World
deriving DecidableEq, Repr

/-- The state at the end of the `for` loop of `net_bind`: whether `ptr` is non-`NULL`
(the loop left through `break`), the variable `fd`, and the world. -/
structure LoopResult where
  found : Bool
  fd : Int
  world : World
deriving DecidableEq, Repr

/-- The call `socket(...)` for a candidate. -/
def socket_call (ai : addrinfo) (w : World) : FdResult :=
  if ai.socket_ok then
    { fd := (w.log Call.socket).open_fd.1, world := (w.log Call.socket).open_fd.2 }
  else
    { fd := -1, world := w.log Call.socket }

/-- The call `bind(fd, ...)` for a candidate. -/
def bind_call (ai : addrinfo) (fd : Int) (port : Nat) (w : World) : World :=
  if ai.bind_ret < 0 then w.log (Call.bind fd port)
  else { (w.log (Call.bind fd port)) with bound := (fd, port) :: w.bound }

/-- The `for` loop of `net_bind` over the candidates still to try, entered with the
current value of `fd`. -/
def net_bind_loop (port : Nat) : List addrinfo → Int → World → LoopResult
  | [], fd, w => { found := false, fd := fd, world := w }
  | ai :: rest, fd, w =>
    let w1 := if fd ≥ 0 then w.close fd else w
    let s := socket_call ai w1
    if s.fd < 0 then net_bind_loop port rest s.fd s.world
    else if ai.fcntl_getfl < 0 then net_bind_loop port rest s.fd s.world
    else if ai.fcntl_setfl < 0 then net_bind_loop port rest s.fd s.world
    else if ai.setsockopt_keepalive < 0 then net_bind_loop port rest s.fd s.world
    else if ai.setsockopt_reuseaddr < 0 then net_bind_loop port rest s.fd s.world
    else if (if ai.ai_family_is_inet6 then ai.setsockopt_v6only else 0) < 0 then
      net_bind_loop port rest s.fd s.world
    else if ai.bind_ret < 0 then net_bind_loop port rest s.fd (bind_call ai s.fd port s.world)
    else { found := true, fd := s.fd, world := bind_call ai s.fd port s.world }

/-- The function `net_bind(node, port)` of `utils.c`. The argument `node` only feeds
`getaddrinfo`, whose result is given by the environment. The code tests that result
with `ret < 0` only: after a failure reported by a positive code it goes on to walk and
free the uninitialised `servinfo`, which is undefined behaviour (`none`). -/
def net_bind (env : NetBindEnv) (port : Nat) (w : World) : Option FdResult :=
  if env.getaddrinfo_ret < 0 then
    some { fd := -1, world := w }
  else if env.getaddrinfo_ret ≠ 0 then
    none
  else
    let r := net_bind_loop port env.servinfo (-1) w
    if !r.found then
      some { fd := -1, world := if r.fd ≥ 0 then r.world.close r.fd else r.world }
    else
      some { fd := r.fd, world := r.world }

/-! ## Facade: bind (`airptp.c`) -/

/-- The outcomes `airptp_daemon_bind` depends on. -/
structure BindEnv where
  event : NetBindEnv
  general : NetBindEnv
  calloc_ok : Bool
deriving DecidableEq, Repr

/-- A handle pointer (`none` is `NULL`) and the world after the call. -/
structure HandleResult where
  hdl : Option airptp_handle
  world : World
deriving DecidableEq, Repr

/-- The `error:` path of `airptp_daemon_bind` (`hdl` is `NULL` on every jump to it). -/
def airptp_daemon_bind_error (fd_event fd_general : Int) (w : World) : HandleResult :=
  let w1 := if fd_event ≥ 0 then w.close fd_event else w
  let w2 := if fd_general ≥ 0 then w1.close fd_general else w1
  { hdl := none, world := w2 }

/-- The function `airptp_daemon_bind` of `airptp.c`; `none` when a call of `net_bind`
is undefined. -/
def airptp_daemon_bind (env : BindEnv) (w : World) : Option HandleResult :=
  match net_bind env.event PTP_EVENT_PORT w with
  | none => none
  | some e =>
    if e.fd < 0 then some (airptp_daemon_bind_error e.fd (-1) e.world)
    else
      match net_bind env.general PTP_GENERAL_PORT e.world with
      | none => none
      | some g =>
        if g.fd < 0 then some (airptp_daemon_bind_error e.fd g.fd g.world)
        else if !env.calloc_ok then some (airptp_daemon_bind_error e.fd g.fd g.world)
        else
          some
            { hdl := some
                { calloc_handle with
                  daemon :=
                    { calloc_handle.daemon with
                      event_svc := { calloc_handle.daemon.event_svc with
                                     port := PTP_EVENT_PORT, fd := e.fd }
                      general_svc := { calloc_handle.daemon.general_svc with
                                       port := PTP_GENERAL_PORT, fd := g.fd } }
                  state := airptp_state.PORTS_BOUND
                  is_daemon := true }
              world := g.world }

/-! ## Presence beacon (`daemon.c`) -/

/-- The outcomes `daemon_shm_create` depends on, apart from whether the region exists
(which the world tells): whether `shm_open` is otherwise permitted, the result of
`ftruncate`, whether `mmap` succeeds, and the value of `time(NULL)`. -/
structure ShmCreateEnv where
  shm_open_ok : Bool
  ftruncate_ret : Int
  mmap_ok : Bool
  now : Int
deriving DecidableEq, Repr

/-- The result of `daemon_shm_create`: the returned descriptor, the pointer `*shm`
afterwards, and the world. -/
structure ShmCreateResult where
  fd : Int
  shm : shm_ptr
  world : World
deriving DecidableEq, Repr

/-- The function `daemon_shm_destroy(shm, fd)`: unmap unless `MAP_FAILED`, close `fd`
unless negative, and unlink the name in every case. -/
def daemon_shm_destroy (shm : shm_ptr) (fd : Int) (w : World) : World :=
  let w1 := if shm ≠ shm_ptr.MAP_FAILED then w.log Call.munmap else w
  let w2 := if fd ≥ 0 then w1.close fd else w1
  { (w2.log Call.shm_unlink) with shm := none }

/-- The function `daemon_shm_create(shm, clock_id)`. `shm_open` with
`O_CREAT | O_EXCL` fails when the region exists; a created region is zero-filled until
the four fields are written, the 16-bit ones truncated to their width. -/
def daemon_shm_create (c : Consts) (env : ShmCreateEnv) (shm : shm_ptr) (clock_id : Nat)
    (w : World) : ShmCreateResult :=
  let w0 := w.log Call.shm_open_create
  if w.shm.isSome || !env.shm_open_ok then
    { fd := -1, shm := shm, world := daemon_shm_destroy shm_ptr.MAP_FAILED (-1) w0 }
  else
    let fd := w0.open_fd.1
    let w1 : World :=
      { w0.open_fd.2 with
        shm := some { version_major := 0, version_minor := 0, clock_id := 0, ts := 0 } }
    let w2 := w1.log (Call.ftruncate fd)
    if env.ftruncate_ret < 0 then
      { fd := -1, shm := shm, world := daemon_shm_destroy shm_ptr.MAP_FAILED fd w2 }
    else
      let w3 := w2.log (Call.mmap fd)
      if !env.mmap_ok then
        { fd := -1, shm := shm, world := daemon_shm_destroy shm_ptr.MAP_FAILED fd w3 }
      else
        { fd := fd
          shm := shm_ptr.mapped
          world :=
            { w3 with
              shm := some
                { version_major := c.AIRPTP_SHM_STRUCTS_VERSION_MAJOR % 2 ^ 16
                  version_minor := c.AIRPTP_SHM_STRUCTS_VERSION_MINOR % 2 ^ 16
                  clock_id := clock_id
                  ts := env.now } } }

/-! ## Daemon core (`daemon.c`) -/

/-- The call `event_new` / `evtimer_new`: a fresh event, or `NULL`. -/
def event_new (ok : Bool) : Option event :=
  if ok then some { pending := none, freed := false } else none

/-- The call `event_add(ev, tv)` on a non-`NULL` event. -/
def event_add (ev : Option event) (tv : Option timeval) : Option event :=
  ev.map (fun e => { e with pending := some tv })

/-- The guarded call `if (ev) event_free(ev)`; the pointer itself is left as it is. -/
def event_free (ev : Option event) : Option event :=
  ev.map (fun e => { e with pending := none, freed := true })

/-- The function `service_stop`. -/
def service_stop (svc : airptp_service) : airptp_service :=
  { svc with ev := none }

/-- The function `service_start`: the return value and the service afterwards. -/
def service_start (svc : airptp_service) (event_new_ok : Bool) : Int × airptp_service :=
  if event_new_ok then
    (0, { svc with ev := event_add (event_new true) none })
  else
    (-1, service_stop { svc with ev := none })

/-- The timeout `daemon_shm_update_tv`. -/
def daemon_shm_update_tv : timeval :=
  { tv_sec := DAEMON_INTERVAL_SECS_SHM_UPDATE, tv_usec := 0 }

/-- The outcomes the worker's set-up in `run` depends on. -/
structure RunEnv where
  event_svc_ev_ok : Bool
  general_svc_ev_ok : Bool
  exit_ev_ok : Bool
  shm_update_timer_ok : Bool
  send_announce_timer_ok : Bool
  send_signaling_timer_ok : Bool
  send_sync_timer_ok : Bool
  shm : ShmCreateEnv
deriving DecidableEq, Repr

/-- The part of `run` from the label `stop:` on, entered with the local `shm_fd`. -/
def run_stop (d : airptp_daemon) (shm_fd : Int) (w : World) : airptp_daemon × World :=
  let w1 := daemon_shm_destroy d.info shm_fd w
  ({ d with
     send_announce_timer := event_free d.send_announce_timer
     send_signaling_timer := event_free d.send_signaling_timer
     send_sync_timer := event_free d.send_sync_timer
     exit_ev := event_free d.exit_ev
     general_svc := service_stop d.general_svc
     event_svc := service_stop d.event_svc },
   { w1 with worker := Worker.exited })

/-- The part of `run` up to `event_base_dispatch`: on a failure it goes to `stop:` and
the thread ends; otherwise the worker sits in the event loop. -/
def run (c : Consts) (env : RunEnv) (d : airptp_daemon) (w : World) : airptp_daemon × World :=
  let s1 := service_start d.event_svc env.event_svc_ev_ok
  let d1 := { d with event_svc := s1.2 }
  if s1.1 < 0 then run_stop d1 (-1) w
  else
    let s2 := service_start d1.general_svc env.general_svc_ev_ok
    let d2 := { d1 with general_svc := s2.2 }
    if s2.1 < 0 then run_stop d2 (-1) w
    else
      let d3 := { d2 with exit_ev := event_new env.exit_ev_ok }
      if d3.exit_ev.isNone then run_stop d3 (-1) w
      else
        let d4 := { d3 with exit_ev := event_add d3.exit_ev none }
        let d5 := { d4 with shm_update_timer := event_new env.shm_update_timer_ok }
        if d5.shm_update_timer.isNone then run_stop d5 (-1) w
        else
          let d6 := { d5 with
                      shm_update_timer :=
                        event_add d5.shm_update_timer (some daemon_shm_update_tv) }
          let d7 := { d6 with
                      send_announce_timer := event_new env.send_announce_timer_ok
                      send_signaling_timer := event_new env.send_signaling_timer_ok
                      send_sync_timer := event_new env.send_sync_timer_ok }
          if d7.send_announce_timer.isNone || d7.send_signaling_timer.isNone
              || d7.send_sync_timer.isNone then run_stop d7 (-1) w
          else if d7.is_shared then
            let r := daemon_shm_create c env.shm d7.info d7.clock_id w
            let d8 := { d7 with info := r.shm }
            if r.fd < 0 then run_stop d8 r.fd r.world
            else (d8, { r.world with worker := Worker.looping r.fd })
          else (d7, { w with worker := Worker.looping (-1) })

/-- The handler `exit_cb`, run by the worker when the control pipe is readable. -/
def exit_cb (d : airptp_daemon) (w : World) : airptp_daemon × World :=
  ({ d with is_running := false },
   { (w.log (Call.read d.exit_pipe.1)) with pipe_bytes := w.pipe_bytes - 1 })

/-- The outcomes `daemon_start` depends on. -/
structure StartEnv where
  msg_handle_init_ret : Int
  pipe_ret : Int
  event_base_new_ok : Bool
  pthread_create_ret : Int
  tid : Nat
  run : RunEnv
deriving DecidableEq, Repr

/-- A return value, the daemon structure and the world after a call. -/
structure DaemonResult where
  ret : Int
  daemon : airptp_daemon
  world : World
deriving DecidableEq, Repr

/-- The call `event_base_free(base)`, recorded by counting: libevent ignores a `NULL`
base; for any other base the count of releases goes up. The model keeps going after a
release of a base that was released before, so that the calls the code makes can be
read off, but such a call is a double free and undefined in C: `event_base_free_defined`
tells the calls that are within the contract of libevent. -/
def event_base_free (base : Option event_base) : Option event_base :=
  base.map (fun b => { b with free_count := b.free_count + 1 })

/-- The `error:` path of `daemon_start`. -/
def daemon_start_error (d : airptp_daemon) (w : World) : DaemonResult :=
  if d.evbase.isSome then
    { ret := -1, daemon := { d with evbase := event_base_free d.evbase },
      world := w.log Call.event_base_free }
  else
    { ret := -1, daemon := d, world := w }

/-- The function `daemon_start`. A new thread exists exactly when `pthread_create`
returns 0; the code takes the error path only for a negative result. -/
def daemon_start (c : Consts) (env : StartEnv) (d : airptp_daemon) (is_shared : Bool)
    (clock_id : Nat) (cb : Option callbacks) (w : World) : DaemonResult :=
  let w1 := w.log Call.msg_handle_init
  if env.msg_handle_init_ret < 0 then daemon_start_error d w1
  else
    let w2 := w1.log Call.pipe
    if env.pipe_ret < 0 then daemon_start_error d w2
    else
      let p0 := w2.open_fd
      let p1 := p0.2.open_fd
      let w3 : World := { p1.2 with pipe_bytes := 0 }
      let d1 := { d with
                  exit_pipe := (p0.1, p1.1)
                  info := shm_ptr.MAP_FAILED
                  is_shared := is_shared
                  clock_id := clock_id
                  cb := cb }
      let w4 := w3.log Call.event_base_new
      let d2 := { d1 with
                  evbase := if env.event_base_new_ok then some { free_count := 0 } else none }
      if d2.evbase.isNone then daemon_start_error d2 w4
      else
        let w5 := w4.log Call.pthread_create
        let t := if env.pthread_create_ret = 0 then run c env.run { d2 with tid := env.tid } w5
                 else (d2, w5)
        if env.pthread_create_ret < 0 then daemon_start_error t.1 t.2
        else { ret := 0, daemon := { t.1 with is_running := true }, world := t.2 }

/-- The outcome `daemon_stop` depends on: the result of the `write` to the pipe (the
number of bytes written, or negative). -/
structure StopEnv where
  write_ret : Int
deriving DecidableEq, Repr

/-- The call `pthread_join(daemon->tid, NULL)`. A worker in the event loop leaves it
when the control pipe holds a byte, through `exit_cb` and the `stop:` part of `run`;
with an empty pipe it never leaves and the join does not return (`none`). For a thread
that was never created (`daemon->tid` is then not set) or was joined before, the call is
undefined in C; the model records the call and lets it return the error 3 (`ESRCH`), and
`pthread_join_defined` tells the calls that are within the contract of the thread
library. -/
def pthread_join (d : airptp_daemon) (w : World) : Option DaemonResult :=
  match w.worker with
  | Worker.looping shm_fd =>
    if w.pipe_bytes = 0 then none
    else
      let x := exit_cb d w
      let y := run_stop x.1 shm_fd x.2
      some { ret := 0, daemon := y.1,
             world := { y.2 with worker := Worker.joined }.log Call.pthread_join }
  | Worker.exited =>
    some { ret := 0, daemon := d,
           world := { w with worker := Worker.joined }.log Call.pthread_join }
  | Worker.none => some { ret := 3, daemon := d, world := w.log Call.pthread_join }
  | Worker.joined => some { ret := 3, daemon := d, world := w.log Call.pthread_join }

/-- The part of `daemon_stop` from the label `cleanup:` on. -/
def daemon_stop_cleanup (d : airptp_daemon) (w : World) : airptp_daemon × World :=
  let w1 := w.log Call.event_base_free
  let w2 := if d.event_svc.fd ≥ 0 then w1.close d.event_svc.fd else w1
  let w3 := if d.general_svc.fd ≥ 0 then w2.close d.general_svc.fd else w2
  ({ d with evbase := event_base_free d.evbase }, w3)

/-- The function `daemon_stop`; `none` when it never returns. -/
def daemon_stop (env : StopEnv) (d : airptp_daemon) (w : World) :
    Option (airptp_daemon × World) :=
  if !d.is_running then some (daemon_stop_cleanup d w)
  else
    let w1 := w.log (Call.write d.exit_pipe.2)
    let w2 := if env.write_ret ≤ 0 then w1 else { w1 with pipe_bytes := w1.pipe_bytes + 1 }
    match pthread_join d w2 with
    | none => none
    | some r => some (daemon_stop_cleanup r.daemon r.world)

/-- Whether `event_base_free(base)` is a defined call: the base is `NULL` or has not
been released yet. -/
def event_base_free_defined (base : Option event_base) : Bool :=
  match base with
  | none => true
  | some b => b.free_count == 0

/-- Whether `pthread_join(daemon->tid, NULL)` is a defined call: the worker thread was
created and has not been joined yet. -/
def pthread_join_defined (w : World) : Bool :=
  match w.worker with
  | Worker.looping _ => true
  | Worker.exited => true
  | Worker.none => false
  | Worker.joined => false

/-- Whether every library call that `daemon_stop` makes is a defined one: the join, when
the daemon counts as running, and the release of the event base at `cleanup:`, when that
label is reached. -/
def daemon_stop_defined (env : StopEnv) (d : airptp_daemon) (w : World) : Bool :=
  if !d.is_running then event_base_free_defined d.evbase
  else
    let w1 := w.log (Call.write d.exit_pipe.2)
    let w2 := if env.write_ret ≤ 0 then w1 else { w1 with pipe_bytes := w1.pipe_bytes + 1 }
    pthread_join_defined w2 &&
      match pthread_join d w2 with
      | none => true
      | some r => event_base_free_defined r.daemon.evbase

/-! ## Daemon core: timer handlers (`daemon.c`) -/

/-- The three send calls of the message gateway (`msg_handle.h`, whose implementation
is not among the sources), taken as parameters: what each call does to the daemon
structure it is given. -/
structure Gateway where
  msg_announce_send : airptp_daemon → airptp_daemon
  msg_signaling_send : airptp_daemon → airptp_daemon
  msg_sync_send : airptp_daemon → airptp_daemon

/-- The timeout `daemon_send_announce_tv`. -/
def daemon_send_announce_tv (c : Consts) : timeval :=
  { tv_sec := c.AIRPTP_INTERVAL_MS_ANNOUNCE / 1000
    tv_usec := (c.AIRPTP_INTERVAL_MS_ANNOUNCE % 1000) * 1000 }

/-- The timeout `daemon_send_signaling_tv`. -/
def daemon_send_signaling_tv (c : Consts) : timeval :=
  { tv_sec := c.AIRPTP_INTERVAL_MS_SIGNALING / 1000
    tv_usec := (c.AIRPTP_INTERVAL_MS_SIGNALING % 1000) * 1000 }

/-- The timeout `daemon_send_sync_tv`. -/
def daemon_send_sync_tv (c : Consts) : timeval :=
  { tv_sec := c.AIRPTP_INTERVAL_MS_SYNC / 1000
    tv_usec := (c.AIRPTP_INTERVAL_MS_SYNC % 1000) * 1000 }

/-- The handler `send_announce_cb`. -/
def send_announce_cb (c : Consts) (gw : Gateway) (d : airptp_daemon) (w : World) :
    airptp_daemon × World :=
  if d.num_slaves = 0 then (d, w)
  else
    let d1 := gw.msg_announce_send d
    ({ d1 with
       send_announce_timer :=
         event_add d1.send_announce_timer (some (daemon_send_announce_tv c)) },
     w.log Call.msg_announce_send)

/-- The handler `send_signaling_cb`. -/
def send_signaling_cb (c : Consts) (gw : Gateway) (d : airptp_daemon) (w : World) :
    airptp_daemon × World :=
  if d.num_slaves = 0 then (d, w)
  else
    let d1 := gw.msg_signaling_send d
    ({ d1 with
       send_signaling_timer :=
         event_add d1.send_signaling_timer (some (daemon_send_signaling_tv c)) },
     w.log Call.msg_signaling_send)

/-- The handler `send_sync_cb`. -/
def send_sync_cb (c : Consts) (gw : Gateway) (d : airptp_daemon) (w : World) :
    airptp_daemon × World :=
  if d.num_slaves = 0 then (d, w)
  else
    let d1 := gw.msg_sync_send d
    ({ d1 with
       send_sync_timer := event_add d1.send_sync_timer (some (daemon_send_sync_tv c)) },
     w.log Call.msg_sync_send)

/-- The handler `shm_update_cb`, with `now` the value of `time(NULL)`. The store
`daemon->info->ts = ...` goes through the pointer `daemon->info`: through a mapping it
changes the time stamp of the region (when the name still refers to it); through `NULL`
or `MAP_FAILED` it is an access to unmapped memory and the thread faults (`none`). -/
def shm_update_cb (now : Int) (d : airptp_daemon) (w : World) :
    Option (airptp_daemon × World) :=
  match d.info with
  | shm_ptr.mapped =>
    some ({ d with
            shm_update_timer := event_add d.shm_update_timer (some daemon_shm_update_tv) },
          { w with shm := w.shm.map (fun r => { r with ts := now }) })
  | shm_ptr.NULL => none
  | shm_ptr.MAP_FAILED => none

/-! ## Facade: start, find, free, clock identity (`airptp.c`) -/

/-- The result of `airptp_daemon_start`: return value, handle and world afterwards. -/
structure StartResult where
  ret : Int
  hdl : airptp_handle
  world : World
deriving DecidableEq, Repr

/-- The function `airptp_daemon_start`. The seed is a `uint64_t` value; `cb` is `none`
for a `NULL` argument. -/
def airptp_daemon_start (c : Consts) (env : StartEnv) (hdl : airptp_handle)
    (clock_id_seed : Nat) (is_shared : Bool) (cb : Option callbacks) (w : World) :
    StartResult :=
  if !hdl.is_daemon || hdl.state ≠ airptp_state.PORTS_BOUND then
    { ret := -1, hdl := hdl, world := w }
  else
    let cb1 := match cb with
      | none => some callbacks.dummy_cb
      | some x => some x
    let hdl1 := { hdl with clock_id := clock_id_seed ||| 0xFFFF000000000000 }
    let r := daemon_start c env hdl1.daemon is_shared hdl1.clock_id cb1 w
    let hdl2 := { hdl1 with daemon := r.daemon }
    if r.ret < 0 then { ret := -1, hdl := hdl2, world := r.world }
    else { ret := 0, hdl := { hdl2 with state := airptp_state.RUNNING }, world := r.world }

/-- Arithmetic on a signed 64-bit integer: the value is reduced into
`[-2^63, 2^63)`. -/
def wrap_i64 (x : Int) : Int :=
  (x + 2 ^ 63) % 2 ^ 64 - 2 ^ 63

/-- The outcomes `airptp_daemon_find` depends on, apart from whether the region exists:
whether `shm_open` is otherwise permitted, whether `mmap` succeeds, the value of
`time(NULL)` and whether `calloc` succeeds. -/
structure FindEnv where
  shm_open_ok : Bool
  mmap_ok : Bool
  now : Int
  calloc_ok : Bool
deriving DecidableEq, Repr

/-- The function `airptp_daemon_find`. -/
def airptp_daemon_find (c : Consts) (env : FindEnv) (w : World) : HandleResult :=
  let w0 := w.log Call.shm_open_rdonly
  match w.shm with
  | none => { hdl := none, world := w0 }
  | some daemon_info =>
    if !env.shm_open_ok then { hdl := none, world := w0 }
    else
      let fd := w0.open_fd.1
      let w1 := w0.open_fd.2.log (Call.mmap fd)
      if !env.mmap_ok then { hdl := none, world := w1.close fd }
      else if daemon_info.version_major ≠ c.AIRPTP_SHM_STRUCTS_VERSION_MAJOR then
        { hdl := none, world := (w1.log Call.munmap).close fd }
      else if wrap_i64 (daemon_info.ts + c.AIRPTP_SHM_STALE_SECS) < env.now then
        { hdl := none, world := (w1.log Call.munmap).close fd }
      else if !env.calloc_ok then
        { hdl := none, world := (w1.log Call.munmap).close fd }
      else
        { hdl := some
            { calloc_handle with
              clock_id := daemon_info.clock_id
              state := airptp_state.RUNNING
              is_daemon := false }
          world := (w1.log Call.munmap).close fd }

/-- The function `airptp_free`; `none` when it never returns. -/
def airptp_free (env : StopEnv) (hdl : Option airptp_handle) (w : World) : Option World :=
  match hdl with
  | none => some w
  | some h =>
    if h.is_daemon then
      match daemon_stop env h.daemon w with
      | none => none
      | some r => some (r.2.log Call.free_handle)
    else some (w.log Call.free_handle)

/-- The result of `airptp_clock_id_get`: return value, the content of `*clock_id`
afterwards, and the handle afterwards. -/
structure ClockIdResult where
  ret : Int
  clock_id : Nat
  hdl : airptp_handle
deriving DecidableEq, Repr

/-- The function `airptp_clock_id_get(clock_id, hdl)`; the first argument is the content
of `*clock_id` before the call. -/
def airptp_clock_id_get (clock_id : Nat) (hdl : airptp_handle) : ClockIdResult :=
  if hdl.state ≠ airptp_state.RUNNING then { ret := -1, clock_id := clock_id, hdl := hdl }
  else { ret := 0, clock_id := hdl.clock_id, hdl := hdl }

/-! ## Predicates used in the proofs -/

/-- The log of the second world continues the log of the first. -/
def LogExtends (w w2 : World) : Prop :=
  ∃ l, w2.trace = w.trace ++ l

/-- The invariant of the loop of `net_bind` relative to the descriptors `base` open at
its start: either `fd` holds no descriptor and exactly `base` is open, or `fd` is a new
descriptor open on top of `base`. -/
def BindInv (base : List Int) (fd : Int) (w : World) : Prop :=
  (fd < 0 ∧ w.open_fds = base) ∨ (0 ≤ fd ∧ fd ∉ base ∧ w.open_fds = fd :: base)

/-- What the loop of `net_bind` guarantees about its final state, relative to the
descriptors `base` open and the sockets `bound0` bound at its start: when it leaves
through `break`, `fd` is a new descriptor, open on top of the initial ones and bound to
the port; when it runs out of candidates the invariant holds; sockets bound on the
initial descriptors stay bound. -/
def LoopSpec (port : Nat) (base : List Int) (bound0 : List (Int × Nat)) (r : LoopResult) :
    Prop :=
  (r.found = true →
      0 ≤ r.fd ∧ r.fd ∉ base ∧ r.world.open_fds = r.fd :: base ∧ (r.fd, port) ∈ r.world.bound)
    ∧ (r.found = false → BindInv base r.fd r.world)
    ∧ ∀ q ∈ bound0, q.1 ∈ base → q ∈ r.world.bound

/-! ## Sample values -/

/-- Sample constants: layout version 1.0, a staleness threshold of 10 seconds. -/
def sample_consts : Consts :=
  { AIRPTP_SHM_STRUCTS_VERSION_MAJOR := 1
    AIRPTP_SHM_STRUCTS_VERSION_MINOR := 0
    AIRPTP_SHM_STALE_SECS := 10
    AIRPTP_INTERVAL_MS_ANNOUNCE := 2000
    AIRPTP_INTERVAL_MS_SIGNALING := 1000
    AIRPTP_INTERVAL_MS_SYNC := 125 }

/-- A process with the three standard descriptors open and no beacon on the host. -/
def sample_world : World :=
  { open_fds := [0, 1, 2], bound := [], shm := none, pipe_bytes := 0,
    worker := Worker.none, trace := [] }

/-- A candidate address for which every call succeeds. -/
def good_addr : addrinfo :=
  { ai_family_is_inet6 := true, socket_ok := true, fcntl_getfl := 2, fcntl_setfl := 0,
    setsockopt_keepalive := 0, setsockopt_reuseaddr := 0, setsockopt_v6only := 0,
    bind_ret := 0 }

/-- A candidate address on which `bind` fails (port in use, or no privilege). -/
def bad_addr : addrinfo :=
  { good_addr with bind_ret := -1 }

/-- Both ports can be bound and `calloc` succeeds. -/
def good_bind_env : BindEnv :=
  { event := { getaddrinfo_ret := 0, servinfo := [good_addr] }
    general := { getaddrinfo_ret := 0, servinfo := [good_addr] }
    calloc_ok := true }

/-- Every call of the worker's set-up succeeds; the clock reads 1000. -/
def good_run_env : RunEnv :=
  { event_svc_ev_ok := true, general_svc_ev_ok := true, exit_ev_ok := true,
    shm_update_timer_ok := true, send_announce_timer_ok := true,
    send_signaling_timer_ok := true, send_sync_timer_ok := true,
    shm := { shm_open_ok := true, ftruncate_ret := 0, mmap_ok := true, now := 1000 } }

/-- Every call of `daemon_start` succeeds. -/
def good_start_env : StartEnv :=
  { msg_handle_init_ret := 0, pipe_ret := 0, event_base_new_ok := true,
    pthread_create_ret := 0, tid := 1, run := good_run_env }

/-- The `write` of `daemon_stop` writes its byte. -/
def good_stop_env : StopEnv :=
  { write_ret := 1 }

/-- The handle `airptp_daemon_bind` returns in the sample world: sockets 3 and 4. -/
def sample_owner : airptp_handle :=
  { calloc_handle with
    daemon :=
      { calloc_handle.daemon with
        event_svc := { port := PTP_EVENT_PORT, fd := 3, ev := none }
        general_svc := { port := PTP_GENERAL_PORT, fd := 4, ev := none } }
    state := airptp_state.PORTS_BOUND
    is_daemon := true }

/-- The world after that `airptp_daemon_bind`. -/
def sample_bound_world : World :=
  match airptp_daemon_bind good_bind_env sample_world with
  | some r => r.world
  | none => sample_world

/-- A handle as `airptp_daemon_find` returns it, for clock identity `0xFFFF000000000001`. -/
def sample_observer : airptp_handle :=
  { calloc_handle with
    clock_id := 0xFFFF000000000001
    state := airptp_state.RUNNING
    is_daemon := false }

/-- A beacon record of version 1.0 for identity `0xFFFF000000000001`, refreshed at
time 1000. -/
def sample_record : airptp_shm_struct :=
  { version_major := 1, version_minor := 0, clock_id := 0xFFFF000000000001, ts := 1000 }

/-- The sample world with a beacon holding the given record. -/
def world_with_beacon (r : airptp_shm_struct) : World :=
  { sample_world with shm := some r }

/-- A reader for which every call succeeds and whose clock reads `now`. -/
def find_env_at (now : Int) : FindEnv :=
  { shm_open_ok := true, mmap_ok := true, now := now, calloc_ok := true }

/-- The sample owner after a successful start with seed 1 and a shared beacon. -/
def sample_started : StartResult :=
  airptp_daemon_start sample_consts good_start_env sample_owner 1 true none sample_bound_world

/-- The daemon and the world after `daemon_stop` on the started sample owner. -/
def sample_stopped : airptp_daemon × World :=
  (daemon_stop good_stop_env sample_started.hdl.daemon sample_started.world).getD
    (sample_started.hdl.daemon, sample_started.world)

/-- Every call of `daemon_start` succeeds except `pthread_create`, which returns the
error number 11 (`EAGAIN`) and creates no thread. -/
def spawn_fails_env : StartEnv :=
  { good_start_env with pthread_create_ret := 11 }

/-- The message gateway and the pipe are fine, but `event_base_new` returns `NULL`. -/
def evbase_fails_env : StartEnv :=
  { good_start_env with event_base_new_ok := false }

/-- A gateway whose send calls leave the daemon structure as it is. -/
def quiet_gateway : Gateway :=
  { msg_announce_send := fun d => d
    msg_signaling_send := fun d => d
    msg_sync_send := fun d => d }

/-- The beacon of another daemon, with identity `0xFFFF0000000000AA`, refreshed at 999. -/
def foreign_record : airptp_shm_struct :=
  { version_major := 1, version_minor := 0, clock_id := 0xFFFF0000000000AA, ts := 999 }

/-- The world after the sample bind, on a host where another daemon publishes its
beacon. -/
def foreign_beacon_world : World :=
  { sample_bound_world with shm := some foreign_record }

/-- The sample owner after a successful start with seed 1 and without a shared
beacon. -/
def sample_private_started : StartResult :=
  airptp_daemon_start sample_consts good_start_env sample_owner 1 false none
    sample_bound_world

/-- The started sample daemon with two slaves known to the gateway. -/
def sample_daemon_two_slaves : airptp_daemon :=
  { sample_started.hdl.daemon with num_slaves := 2 }

/-- The address resolution for the event port fails with the positive code 6
(`EAI_MEMORY` on macOS and the BSDs); every other call would succeed. -/
def resolution_fails_env : BindEnv :=
  { good_bind_env with event := { getaddrinfo_ret := 6, servinfo := [] } }

/-- The sample owner started with a shared beacon on a host where another daemon's
beacon exists: the start returns 0, but the worker has left `run` during its set-up. -/
def sample_early_exit : StartResult :=
  airptp_daemon_start sample_consts good_start_env sample_owner 1 true none
    foreign_beacon_world

/-- The daemon and the world after `daemon_stop` on that daemon. -/
def sample_early_exit_stopped : airptp_daemon × World :=
  (daemon_stop good_stop_env sample_early_exit.hdl.daemon sample_early_exit.world).getD
    (sample_early_exit.hdl.daemon, sample_early_exit.world)

/-! ## Theorems -/

/-! ### Helper lemmas: descriptors -/

theorem lowest_free_from_ge (fuel : Nat) : ∀ (used : List Int) (c : Int),
    c ≤ lowest_free_from fuel used c := by
  induction fuel with
  | zero => intro used c; simp [lowest_free_from]
  | succ n ih =>
    intro used c
    unfold lowest_free_from
    split
    · have := ih (used.filter (fun x => x ≠ c)) (c + 1)
      omega
    · exact le_refl c

theorem lowest_free_from_not_mem (fuel : Nat) : ∀ (used : List Int) (c : Int),
    used.length ≤ fuel → lowest_free_from fuel used c ∉ used := by
  induction fuel with
  | zero =>
    intro used c h
    have : used = [] := List.length_eq_zero.mp (Nat.le_zero.mp h)
    simp [this]
  | succ n ih =>
    intro used c h
    unfold lowest_free_from
    split
    · rename_i hc
      have hlen : (used.filter (fun x => x ≠ c)).length < used.length :=
        List.length_filter_lt_length_iff_exists.mpr ⟨c, hc, by simp⟩
      have h1 := ih (used.filter (fun x => x ≠ c)) (c + 1) (by omega)
      have h2 := lowest_free_from_ge n (used.filter (fun x => x ≠ c)) (c + 1)
      intro hmem
      apply h1
      rw [List.mem_filter]
      exact ⟨hmem, decide_eq_true (by omega)⟩
    · assumption

/-- A new descriptor is not among the open ones. -/
theorem lowest_free_not_mem (used : List Int) : lowest_free used ∉ used :=
  lowest_free_from_not_mem _ _ _ (le_refl _)

/-- A new descriptor is not negative. -/
theorem lowest_free_nonneg (used : List Int) : 0 ≤ lowest_free used :=
  lowest_free_from_ge _ _ _

/-- Closing a descriptor that was opened last restores the list of open descriptors. -/
theorem filter_ne_cons_self (fd : Int) (l : List Int) (h : fd ∉ l) :
    (fd :: l).filter (fun x => x ≠ fd) = l := by
  rw [List.filter_cons_of_neg (by simp)]
  exact List.filter_eq_self.mpr (fun a ha => decide_eq_true (fun e => h (e ▸ ha)))

theorem bindInv_close (base : List Int) (fd : Int) (w : World) (h : BindInv base fd w) :
    (if fd ≥ 0 then w.close fd else w).open_fds = base
      ∧ ∀ q ∈ w.bound, q.1 ∈ base → q ∈ (if fd ≥ 0 then w.close fd else w).bound := by
  rcases h with ⟨hneg, ho⟩ | ⟨hpos, hfresh, ho⟩
  · have : ¬ fd ≥ 0 := by omega
    simp only [this, if_false]
    exact ⟨ho, fun q hq _ => hq⟩
  · simp only [ge_iff_le, hpos, if_true, World.close, ho]
    refine ⟨filter_ne_cons_self fd base hfresh, ?_⟩
    intro q hq hb
    rw [List.mem_filter]
    exact ⟨hq, decide_eq_true (fun e => hfresh (e ▸ hb))⟩

theorem bindInv_socket (base : List Int) (ai : addrinfo) (w : World)
    (h : w.open_fds = base) :
    BindInv base (socket_call ai w).fd (socket_call ai w).world
      ∧ (socket_call ai w).world.bound = w.bound := by
  unfold socket_call
  cases ai.socket_ok
  · exact ⟨Or.inl ⟨by norm_num, h⟩, rfl⟩
  · refine ⟨Or.inr ⟨lowest_free_nonneg _, ?_, ?_⟩, rfl⟩
    · simp only [World.log, h]
      exact lowest_free_not_mem base
    · simp [World.open_fd, World.log, h]

theorem net_bind_loop_spec (port : Nat) (base : List Int) :
    ∀ (cands : List addrinfo) (fd : Int) (w : World), BindInv base fd w →
      LoopSpec port base w.bound (net_bind_loop port cands fd w) := by
  intro cands
  induction cands with
  | nil =>
    intro fd w h
    exact ⟨fun hf => by simp [net_bind_loop] at hf, fun _ => h, fun q hq _ => hq⟩
  | cons ai rest ih =>
    intro fd w h
    obtain ⟨hc1, hc2⟩ := bindInv_close base fd w h
    unfold net_bind_loop
    simp only []
    generalize (if fd ≥ 0 then w.close fd else w) = w1 at hc1 hc2 ⊢
    obtain ⟨hs1, hs2⟩ := bindInv_socket base ai w1 hc1
    generalize socket_call ai w1 = s at hs1 hs2 ⊢
    have hkeep : ∀ q ∈ w.bound, q.1 ∈ base → q ∈ s.world.bound := by
      intro q hq hb
      rw [hs2]
      exact hc2 q hq hb
    have cont : ∀ v : World, v.open_fds = s.world.open_fds →
        (∀ q ∈ w.bound, q.1 ∈ base → q ∈ v.bound) →
        LoopSpec port base w.bound (net_bind_loop port rest s.fd v) := by
      intro v hv hvb
      have hinv : BindInv base s.fd v := by
        unfold BindInv at hs1 ⊢
        rw [hv]
        exact hs1
      obtain ⟨i1, i2, i3⟩ := ih _ v hinv
      exact ⟨i1, i2, fun q hq hb => i3 q (hvb q hq hb) hb⟩
    by_cases c1 : s.fd < 0
    · simp only [c1, if_true]
      exact cont _ rfl hkeep
    by_cases c2 : ai.fcntl_getfl < 0
    · simp only [c1, c2, if_true, if_false]
      exact cont _ rfl hkeep
    by_cases c3 : ai.fcntl_setfl < 0
    · simp only [c1, c2, c3, if_true, if_false]
      exact cont _ rfl hkeep
    by_cases c4 : ai.setsockopt_keepalive < 0
    · simp only [c1, c2, c3, c4, if_true, if_false]
      exact cont _ rfl hkeep
    by_cases c5 : ai.setsockopt_reuseaddr < 0
    · simp only [c1, c2, c3, c4, c5, if_true, if_false]
      exact cont _ rfl hkeep
    by_cases c6 : (if ai.ai_family_is_inet6 then ai.setsockopt_v6only else 0) < 0
    · simp only [c1, c2, c3, c4, c5, c6, if_true, if_false]
      exact cont _ rfl hkeep
    by_cases c7 : ai.bind_ret < 0
    · simp only [c1, c2, c3, c4, c5, c6, c7, if_true, if_false]
      refine cont _ (by simp [bind_call, c7, World.log]) ?_
      intro q hq hbq
      simp only [bind_call, c7, if_true, World.log]
      exact hkeep q hq hbq
    · simp only [c1, c2, c3, c4, c5, c6, c7, if_true, if_false]
      rcases hs1 with ⟨hneg, _⟩ | ⟨hpos, hfresh, ho⟩
      · exact absurd hneg c1
      · refine ⟨fun _ => ⟨hpos, hfresh, ?_, ?_⟩, fun hf => by simp at hf, ?_⟩
        · simp [bind_call, c7, World.log, ho]
        · simp [bind_call, c7, World.log]
        · intro q hq hbq
          simp only [bind_call, c7, if_false, World.log, List.mem_cons]
          exact Or.inr (hkeep q hq hbq)

/-- When `getaddrinfo` succeeds or reports its failure by a negative code, `net_bind`
either fails, returning `-1` with exactly the descriptors open that were open before, or
returns a new descriptor, open on top of the previous ones and bound to the port.
Sockets bound on previously open descriptors stay bound. -/
theorem net_bind_spec (env : NetBindEnv) (port : Nat) (w : World)
    (h : env.getaddrinfo_ret ≤ 0) :
    ∃ r, net_bind env port w = some r
      ∧ ((r.fd = -1 ∧ r.world.open_fds = w.open_fds)
        ∨ (0 ≤ r.fd ∧ r.fd ∉ w.open_fds ∧ r.world.open_fds = r.fd :: w.open_fds
            ∧ (r.fd, port) ∈ r.world.bound))
      ∧ ∀ q ∈ w.bound, q.1 ∈ w.open_fds → q ∈ r.world.bound := by
  unfold net_bind
  by_cases hneg : env.getaddrinfo_ret < 0
  · rw [if_pos hneg]
    exact ⟨_, rfl, Or.inl ⟨rfl, rfl⟩, fun q hq _ => hq⟩
  · have hz : ¬ env.getaddrinfo_ret ≠ 0 := by omega
    rw [if_neg hneg, if_neg hz]
    obtain ⟨l1, l2, l3⟩ := net_bind_loop_spec port w.open_fds env.servinfo (-1) w
      (Or.inl ⟨by norm_num, rfl⟩)
    simp only []
    cases hf : (net_bind_loop port env.servinfo (-1) w).found
    · simp only [Bool.not_false, if_true]
      obtain ⟨c1, c2⟩ := bindInv_close _ _ _ (l2 hf)
      exact ⟨_, rfl, Or.inl ⟨rfl, c1⟩, fun q hq hb => c2 q (l3 q hq hb) hb⟩
    · simp only [Bool.not_true, Bool.false_eq_true, if_false]
      exact ⟨_, rfl, Or.inr (l1 hf), l3⟩

/-- After a failure of `getaddrinfo` reported by a positive code, `net_bind` is
undefined. -/
theorem net_bind_undefined (env : NetBindEnv) (port : Nat) (w : World)
    (h : 0 < env.getaddrinfo_ret) : net_bind env port w = none := by
  have h1 : ¬ env.getaddrinfo_ret < 0 := by omega
  have h2 : env.getaddrinfo_ret ≠ 0 := by omega
  unfold net_bind
  rw [if_neg h1, if_pos h2]

/-! ### Helper lemmas: the call log only grows -/

theorem LogExtends.refl (w : World) : LogExtends w w :=
  ⟨[], by simp⟩

theorem LogExtends.trans {a b d : World} (h1 : LogExtends a b) (h2 : LogExtends b d) :
    LogExtends a d := by
  obtain ⟨l1, e1⟩ := h1
  obtain ⟨l2, e2⟩ := h2
  exact ⟨l1 ++ l2, by rw [e2, e1, List.append_assoc]⟩

theorem LogExtends.of_trace_eq {a b : World} (h : b.trace = a.trace) : LogExtends a b :=
  ⟨[], by simp [h]⟩

theorem logExtends_log (w : World) (c : Call) : LogExtends w (w.log c) :=
  ⟨[c], rfl⟩

theorem logExtends_close (w : World) (fd : Int) : LogExtends w (w.close fd) :=
  ⟨[Call.close fd], rfl⟩

theorem logExtends_open_fd (w : World) : LogExtends w w.open_fd.2 :=
  LogExtends.of_trace_eq rfl

theorem logExtends_shm_destroy (p : shm_ptr) (fd : Int) (w : World) :
    LogExtends w (daemon_shm_destroy p fd w) := by
  unfold daemon_shm_destroy
  by_cases h1 : p ≠ shm_ptr.MAP_FAILED <;> by_cases h2 : fd ≥ 0
  · exact ⟨[Call.munmap, Call.close fd, Call.shm_unlink],
      by simp [h1, h2, World.log, World.close]⟩
  · exact ⟨[Call.munmap, Call.shm_unlink], by simp [h1, h2, World.log, World.close]⟩
  · exact ⟨[Call.close fd, Call.shm_unlink], by simp [h1, h2, World.log, World.close]⟩
  · exact ⟨[Call.shm_unlink], by simp [h1, h2, World.log, World.close]⟩

theorem logExtends_shm_create (c : Consts) (env : ShmCreateEnv) (p : shm_ptr) (cid : Nat)
    (w : World) : LogExtends w (daemon_shm_create c env p cid w).world := by
  unfold daemon_shm_create
  simp only []
  split
  · exact (logExtends_log _ _).trans (logExtends_shm_destroy _ _ _)
  · split
    · refine LogExtends.trans ?_ (logExtends_shm_destroy _ _ _)
      exact ⟨[Call.shm_open_create, Call.ftruncate (lowest_free w.open_fds)],
        by simp [World.log, World.open_fd]⟩
    · split
      · refine LogExtends.trans ?_ (logExtends_shm_destroy _ _ _)
        exact ⟨[Call.shm_open_create, Call.ftruncate (lowest_free w.open_fds),
          Call.mmap (lowest_free w.open_fds)], by simp [World.log, World.open_fd]⟩
      · exact ⟨[Call.shm_open_create, Call.ftruncate (lowest_free w.open_fds),
          Call.mmap (lowest_free w.open_fds)], by simp [World.log, World.open_fd]⟩

theorem logExtends_run_stop (d : airptp_daemon) (fd : Int) (w : World) :
    LogExtends w (run_stop d fd w).2 := by
  unfold run_stop
  exact (logExtends_shm_destroy _ _ _).trans (LogExtends.of_trace_eq rfl)

theorem logExtends_run (c : Consts) (env : RunEnv) (d : airptp_daemon) (w : World) :
    LogExtends w (run c env d w).2 := by
  unfold run
  simp only []
  repeat' split
  all_goals first
    | exact logExtends_run_stop _ _ _
    | exact (logExtends_shm_create _ _ _ _ _).trans (logExtends_run_stop _ _ _)
    | exact (logExtends_shm_create _ _ _ _ _).trans (LogExtends.of_trace_eq rfl)
    | exact LogExtends.of_trace_eq rfl

theorem logExtends_start_error (d : airptp_daemon) (w : World) :
    LogExtends w (daemon_start_error d w).world := by
  unfold daemon_start_error
  split
  · exact logExtends_log _ _
  · exact LogExtends.refl _

/-- The first thing `daemon_start` does is to call `msg_handle_init`: its log is the old
one, then `msg_handle_init`, then whatever follows. -/
theorem daemon_start_trace (c : Consts) (env : StartEnv) (d : airptp_daemon) (sh : Bool)
    (cid : Nat) (cb : Option callbacks) (w : World) :
    ∃ l, (daemon_start c env d sh cid cb w).world.trace
      = w.trace ++ Call.msg_handle_init :: l := by
  have key : LogExtends (w.log Call.msg_handle_init)
      (daemon_start c env d sh cid cb w).world := by
    unfold daemon_start
    simp only []
    by_cases h1 : env.msg_handle_init_ret < 0
    · simp only [h1, if_true]
      exact logExtends_start_error _ _
    · simp only [h1, if_false]
      by_cases h2 : env.pipe_ret < 0
      · simp only [h2, if_true]
        exact (logExtends_log _ _).trans (logExtends_start_error _ _)
      · simp only [h2, if_false]
        have hpre : ∀ v : World, LogExtends
            ({ (((w.log Call.msg_handle_init).log Call.pipe).open_fd.2.open_fd.2) with
                pipe_bytes := 0 }.log Call.event_base_new) v →
            LogExtends (w.log Call.msg_handle_init) v := fun v hv =>
          LogExtends.trans
            ⟨[Call.pipe, Call.event_base_new], by simp [World.log, World.open_fd]⟩ hv
        cases hok : env.event_base_new_ok
        · simp only [Bool.false_eq_true, if_false, Option.isNone_none, if_true]
          exact hpre _ (logExtends_start_error _ _)
        · simp only [if_true, Option.isNone_some, Bool.false_eq_true, if_false]
          by_cases h3 : env.pthread_create_ret = 0
          · have h4 : ¬ env.pthread_create_ret < 0 := by omega
            simp only [h3, h4, if_true, if_false]
            exact hpre _ ((logExtends_log _ _).trans (logExtends_run _ _ _ _))
          · simp only [h3, if_false]
            split
            · exact hpre _ ((logExtends_log _ _).trans (logExtends_start_error _ _))
            · exact hpre _ (logExtends_log _ _)
  obtain ⟨l, hl⟩ := key
  exact ⟨l, by rw [hl]; simp [World.log]⟩

/-- Bitwise or with the two top bytes set is addition for a seed of at most 48 bits. -/
theorem lor_top_bytes (seed : Nat) (h : seed < 2 ^ 48) :
    seed ||| 0xFFFF000000000000 = 0xFFFF000000000000 + seed := by
  have h2 := Nat.mul_add_lt_is_or h 0xFFFF
  have e : (2 : Nat) ^ 48 * 0xFFFF = 0xFFFF000000000000 := by norm_num
  rw [e] at h2
  rw [Nat.lor_comm]
  exact h2.symm

/-! ### Clock identity, clock identity query, refused start -/

/-- C1: for a handle that may be started (an owner in state PORTS_BOUND) and every seed
below 2^48, the clock identity `airptp_daemon_start` stores in the handle is
`0xFFFF000000000000 + seed`: its two most significant bytes are `0xFFFF` and its low six
bytes are the seed, whatever the outcome of `daemon_start`. -/
theorem clock_identity_derivation (c : Consts) (env : StartEnv) (hdl : airptp_handle)
    (seed : Nat) (is_shared : Bool) (cb : Option callbacks) (w : World)
    (hd : hdl.is_daemon = true) (hs : hdl.state = airptp_state.PORTS_BOUND)
    (hseed : seed < 2 ^ 48) :
    (airptp_daemon_start c env hdl seed is_shared cb w).hdl.clock_id
        = 0xFFFF000000000000 + seed
      ∧ (airptp_daemon_start c env hdl seed is_shared cb w).hdl.clock_id / 2 ^ 48 = 0xFFFF
      ∧ (airptp_daemon_start c env hdl seed is_shared cb w).hdl.clock_id % 2 ^ 48 = seed := by
  have e : (airptp_daemon_start c env hdl seed is_shared cb w).hdl.clock_id
      = seed ||| 0xFFFF000000000000 := by
    unfold airptp_daemon_start
    simp only [hd, hs, Bool.not_true, ne_eq, not_true_eq_false, decide_False, Bool.or_self,
      Bool.false_eq_true, if_false]
    split <;> rfl
  rw [e, lor_top_bytes seed hseed]
  refine ⟨rfl, ?_, ?_⟩ <;> omega

/-- C1, at the seeds 1 and 0 of the spec: the identities are `0xFFFF000000000001` and
`0xFFFF000000000000`. -/
theorem clock_identity_derivation_witness :
    (airptp_daemon_start sample_consts good_start_env sample_owner 1 true none
        sample_bound_world).hdl.clock_id = 0xFFFF000000000001
      ∧ (airptp_daemon_start sample_consts good_start_env sample_owner 0 true none
        sample_bound_world).hdl.clock_id = 0xFFFF000000000000 :=
  ⟨(clock_identity_derivation sample_consts good_start_env sample_owner 1 true none
      sample_bound_world (by decide) (by decide) (by norm_num)).1,
   (clock_identity_derivation sample_consts good_start_env sample_owner 0 true none
      sample_bound_world (by decide) (by decide) (by norm_num)).1⟩

/-- C2: `airptp_clock_id_get` returns 0 exactly when the state is RUNNING and -1 exactly
when it is not; in state RUNNING it writes the handle's clock identity to the output,
in the states UNBOUND, PORTS_BOUND and STOPPED it leaves the output as it was; the
handle is the same afterwards. -/
theorem clock_id_get_iff_running (out : Nat) (hdl : airptp_handle) :
    ((airptp_clock_id_get out hdl).ret = 0 ↔ hdl.state = airptp_state.RUNNING)
      ∧ ((airptp_clock_id_get out hdl).ret = -1 ↔ hdl.state ≠ airptp_state.RUNNING)
      ∧ (hdl.state = airptp_state.RUNNING →
          airptp_clock_id_get out hdl = { ret := 0, clock_id := hdl.clock_id, hdl := hdl })
      ∧ (hdl.state = airptp_state.UNBOUND ∨ hdl.state = airptp_state.PORTS_BOUND
          ∨ hdl.state = airptp_state.STOPPED →
          airptp_clock_id_get out hdl = { ret := -1, clock_id := out, hdl := hdl })
      ∧ (airptp_clock_id_get out hdl).hdl = hdl := by
  unfold airptp_clock_id_get
  by_cases h : hdl.state = airptp_state.RUNNING
  · simp [h]
  · simp only [ne_eq, h, not_false_eq_true, if_true, false_implies, true_and, iff_true,
      and_true]
    refine ⟨by simp, ?_⟩
    intro _
    trivial

/-- C2, on a running observer with identity `0xFFFF000000000001` and on a handle that
is only bound: the first query yields the identity, the second fails and leaves the
output 7 in place. -/
theorem clock_id_get_iff_running_witness :
    airptp_clock_id_get 7 sample_observer
        = { ret := 0, clock_id := 0xFFFF000000000001, hdl := sample_observer }
      ∧ airptp_clock_id_get 7 sample_owner
        = { ret := -1, clock_id := 7, hdl := sample_owner } :=
  ⟨(clock_id_get_iff_running 7 sample_observer).2.2.1 (by decide),
   (clock_id_get_iff_running 7 sample_owner).2.2.2.1 (Or.inr (Or.inl (by decide)))⟩

/-- C3: on a handle that is an observer or whose state is not PORTS_BOUND,
`airptp_daemon_start` returns -1 and leaves the handle and the world exactly as they
were; `daemon_start` was not called, since every call of it adds `msg_handle_init` to
the log. -/
theorem start_refused_unless_ports_bound (c : Consts) (env : StartEnv)
    (hdl : airptp_handle) (seed : Nat) (is_shared : Bool) (cb : Option callbacks)
    (w : World) (h : hdl.is_daemon = false ∨ hdl.state ≠ airptp_state.PORTS_BOUND) :
    airptp_daemon_start c env hdl seed is_shared cb w = { ret := -1, hdl := hdl, world := w }
      ∧ ∀ (d : airptp_daemon) (sh : Bool) (cid : Nat) (cb2 : Option callbacks),
          (daemon_start c env d sh cid cb2 w).world.trace ≠ w.trace := by
  constructor
  · unfold airptp_daemon_start
    rcases h with h | h
    · simp [h]
    · simp [h]
  · intro d sh cid cb2 heq
    obtain ⟨l, hl⟩ := daemon_start_trace c env d sh cid cb2 w
    rw [hl] at heq
    have := congrArg List.length heq
    simp at this

/-- C3, on an already running owner (the handle after a successful start) and on an
observer: both starts are refused with nothing changed. -/
theorem start_refused_unless_ports_bound_witness :
    airptp_daemon_start sample_consts good_start_env
        (airptp_daemon_start sample_consts good_start_env sample_owner 1 true none
          sample_bound_world).hdl 2 true none sample_world
        = { ret := -1
            hdl := (airptp_daemon_start sample_consts good_start_env sample_owner 1 true none
              sample_bound_world).hdl
            world := sample_world }
      ∧ airptp_daemon_start sample_consts good_start_env sample_observer 2 true none
          sample_world = { ret := -1, hdl := sample_observer, world := sample_world } :=
  ⟨(start_refused_unless_ports_bound sample_consts good_start_env _ 2 true none sample_world
      (Or.inr (by decide))).1,
   (start_refused_unless_ports_bound sample_consts good_start_env sample_observer 2 true
      none sample_world (Or.inl (by decide))).1⟩

/-! ### Discovery -/

/-- Within the signed 64-bit range, `wrap_i64` is the identity. -/
theorem wrap_i64_of_range (x : Int) (lo : -2 ^ 63 ≤ x) (hi : x < 2 ^ 63) : wrap_i64 x = x := by
  unfold wrap_i64
  omega

/-- C4: `airptp_daemon_find` returns no handle when the region does not exist, when
`shm_open` or `mmap` fails, when the record's major version differs from the reader's,
or when `now - ts` exceeds the staleness threshold (time stamps being signed 64-bit
values and the threshold not negative), whatever the other fields of the record and the
other outcomes are. -/
theorem find_rejects_absent_incompatible_stale (c : Consts) (env : FindEnv) (w : World)
    (h : w.shm = none ∨ env.shm_open_ok = false ∨ env.mmap_ok = false
      ∨ ∃ daemon_info, w.shm = some daemon_info
          ∧ (daemon_info.version_major ≠ c.AIRPTP_SHM_STRUCTS_VERSION_MAJOR
            ∨ (0 ≤ c.AIRPTP_SHM_STALE_SECS ∧ -2 ^ 63 ≤ daemon_info.ts ∧ env.now < 2 ^ 63
                ∧ env.now - daemon_info.ts > c.AIRPTP_SHM_STALE_SECS))) :
    (airptp_daemon_find c env w).hdl = none := by
  unfold airptp_daemon_find
  rcases h with h | h | h | ⟨rec, hrec, h⟩
  · simp [h]
  · cases hs : w.shm <;> simp [h]
  · cases hs : w.shm
    · simp
    · by_cases ho : env.shm_open_ok = true <;> simp [h, ho]
  · simp only [hrec]
    by_cases ho : env.shm_open_ok = true
    · by_cases hm : env.mmap_ok = true
      · rcases h with h | ⟨h0, h1, h2, h3⟩
        · simp [ho, hm, h]
        · have hw : wrap_i64 (rec.ts + c.AIRPTP_SHM_STALE_SECS) < env.now := by
            rw [wrap_i64_of_range _ (by omega) (by omega)]
            omega
          simp only [ho, hm, Bool.not_true, Bool.false_eq_true, if_false, hw, if_true]
          split <;> rfl
      · simp [ho, hm]
    · simp [ho]

/-- C4, on four hosts: no beacon; a beacon of major version 2 read by a reader of
version 1; a beacon refreshed at 1000 read at 1011 with threshold 10; and a reader whose
`mmap` fails. -/
theorem find_rejects_absent_incompatible_stale_witness :
    (airptp_daemon_find sample_consts (find_env_at 1001) sample_world).hdl = none
      ∧ (airptp_daemon_find sample_consts (find_env_at 1001)
          (world_with_beacon { sample_record with version_major := 2 })).hdl = none
      ∧ (airptp_daemon_find sample_consts (find_env_at 1011)
          (world_with_beacon sample_record)).hdl = none
      ∧ (airptp_daemon_find sample_consts { find_env_at 1001 with mmap_ok := false }
          (world_with_beacon sample_record)).hdl = none :=
  ⟨find_rejects_absent_incompatible_stale sample_consts (find_env_at 1001) sample_world
      (Or.inl rfl),
   find_rejects_absent_incompatible_stale sample_consts (find_env_at 1001)
      (world_with_beacon { sample_record with version_major := 2 })
      (Or.inr (Or.inr (Or.inr ⟨_, rfl, Or.inl (by decide)⟩))),
   find_rejects_absent_incompatible_stale sample_consts (find_env_at 1011)
      (world_with_beacon sample_record)
      (Or.inr (Or.inr (Or.inr ⟨_, rfl, Or.inr (by decide)⟩))),
   find_rejects_absent_incompatible_stale sample_consts { find_env_at 1001 with mmap_ok := false }
      (world_with_beacon sample_record) (Or.inr (Or.inr (Or.inl rfl)))⟩

/-- What a successful `daemon_shm_create` leaves in the region. -/
theorem shm_create_success (c : Consts) (env : ShmCreateEnv) (p : shm_ptr) (cid : Nat)
    (w : World) (hnone : w.shm = none) (hopen : env.shm_open_ok = true)
    (htr : 0 ≤ env.ftruncate_ret) (hmap : env.mmap_ok = true) :
    (daemon_shm_create c env p cid w).fd = lowest_free w.open_fds
      ∧ (daemon_shm_create c env p cid w).shm = shm_ptr.mapped
      ∧ (daemon_shm_create c env p cid w).world.shm = some
          { version_major := c.AIRPTP_SHM_STRUCTS_VERSION_MAJOR % 2 ^ 16
            version_minor := c.AIRPTP_SHM_STRUCTS_VERSION_MINOR % 2 ^ 16
            clock_id := cid
            ts := env.now } := by
  have h1 : ¬ env.ftruncate_ret < 0 := by omega
  unfold daemon_shm_create
  simp [hnone, hopen, hmap, h1, World.open_fd, World.log]

/-- The world after `airptp_daemon_find` holds the same region as before. -/
theorem find_keeps_region (c : Consts) (env : FindEnv) (w : World) :
    (airptp_daemon_find c env w).world.shm = w.shm := by
  unfold airptp_daemon_find
  cases hs : w.shm
  · simp [World.log, hs]
  · simp only [World.log, World.open_fd, World.close]
    repeat' split
    all_goals simp [hs]

/-- C5: when `daemon_shm_create` succeeds for identity `cid` at time `t` (the region
did not exist; `shm_open`, `ftruncate` and `mmap` succeed), it returns a descriptor and
leaves the record (major, minor, `cid`, `t`) in the region; a reader that then calls
`airptp_daemon_find` at a time `now` with `now - t` not above the threshold, in any
world holding that region and with `shm_open`, `mmap` and `calloc` succeeding, gets a
handle with role OBSERVER, state RUNNING and clock identity `cid`, on which
`airptp_clock_id_get` returns 0 and `cid`; the region is the same after the read. The
major version fits its 16-bit field and `t + threshold` is a signed 64-bit value. -/
theorem publish_discover_round_trip (c : Consts) (cenv : ShmCreateEnv) (fenv : FindEnv)
    (p : shm_ptr) (cid out : Nat) (w w2 : World)
    (hnone : w.shm = none) (hopen : cenv.shm_open_ok = true)
    (htr : 0 ≤ cenv.ftruncate_ret) (hmap : cenv.mmap_ok = true)
    (hmaj : c.AIRPTP_SHM_STRUCTS_VERSION_MAJOR < 2 ^ 16)
    (hlo : -2 ^ 63 ≤ cenv.now + c.AIRPTP_SHM_STALE_SECS)
    (hhi : cenv.now + c.AIRPTP_SHM_STALE_SECS < 2 ^ 63)
    (hw2 : w2.shm = (daemon_shm_create c cenv p cid w).world.shm)
    (hfo : fenv.shm_open_ok = true) (hfm : fenv.mmap_ok = true)
    (hfc : fenv.calloc_ok = true)
    (hfresh : fenv.now - cenv.now ≤ c.AIRPTP_SHM_STALE_SECS) :
    0 ≤ (daemon_shm_create c cenv p cid w).fd
      ∧ (daemon_shm_create c cenv p cid w).world.shm = some
          { version_major := c.AIRPTP_SHM_STRUCTS_VERSION_MAJOR
            version_minor := c.AIRPTP_SHM_STRUCTS_VERSION_MINOR % 2 ^ 16
            clock_id := cid
            ts := cenv.now }
      ∧ ∃ h, (airptp_daemon_find c fenv w2).hdl = some h
          ∧ h.is_daemon = false ∧ h.state = airptp_state.RUNNING ∧ h.clock_id = cid
          ∧ airptp_clock_id_get out h = { ret := 0, clock_id := cid, hdl := h }
          ∧ (airptp_daemon_find c fenv w2).world.shm = w2.shm := by
  obtain ⟨hfd, _, hshm⟩ := shm_create_success c cenv p cid w hnone hopen htr hmap
  rw [Nat.mod_eq_of_lt hmaj] at hshm
  refine ⟨?_, hshm, ?_⟩
  · rw [hfd]
    exact lowest_free_nonneg _
  · rw [hshm] at hw2
    have hwrap : ¬ wrap_i64 (cenv.now + c.AIRPTP_SHM_STALE_SECS) < fenv.now := by
      rw [wrap_i64_of_range _ hlo hhi]
      omega
    refine ⟨{ calloc_handle with
              clock_id := cid, state := airptp_state.RUNNING, is_daemon := false },
      ?_, rfl, rfl, rfl, ?_, find_keeps_region c fenv w2⟩
    · unfold airptp_daemon_find
      simp [hw2, hfo, hfm, hfc, hwrap]
    · simp [airptp_clock_id_get]

/-- C5, on the sample host: the beacon is created for identity `0xFFFF000000000001` at
time 1000 and read at time 1005 with threshold 10; the reader gets a handle with that
identity. -/
theorem publish_discover_round_trip_witness :
    ∃ h, (airptp_daemon_find sample_consts (find_env_at 1005)
          (daemon_shm_create sample_consts good_run_env.shm shm_ptr.MAP_FAILED
            0xFFFF000000000001 sample_world).world).hdl = some h
      ∧ h.clock_id = 0xFFFF000000000001
      ∧ airptp_clock_id_get 0 h = { ret := 0, clock_id := 0xFFFF000000000001, hdl := h } :=
  (publish_discover_round_trip sample_consts good_run_env.shm (find_env_at 1005)
    shm_ptr.MAP_FAILED 0xFFFF000000000001 0 sample_world
    (daemon_shm_create sample_consts good_run_env.shm shm_ptr.MAP_FAILED
      0xFFFF000000000001 sample_world).world
    (by decide) (by decide) (by decide) (by decide) (by decide) (by decide) (by decide)
    rfl (by decide) (by decide) (by decide) (by decide)).2.2.elim
    fun h e => ⟨h, e.1, e.2.2.2.1, e.2.2.2.2.1⟩

/-! ### Port binding -/

/-- The error path of `airptp_daemon_bind` closes what the two `net_bind` calls left
open. -/
theorem bind_error_open_fds (base : List Int) (fe fg : Int) (w : World)
    (h : (fe < 0 ∧ fg < 0 ∧ w.open_fds = base)
      ∨ (0 ≤ fe ∧ fe ∉ base ∧ fg < 0 ∧ w.open_fds = fe :: base)
      ∨ (0 ≤ fe ∧ fe ∉ base ∧ 0 ≤ fg ∧ fg ∉ fe :: base ∧ w.open_fds = fg :: fe :: base)) :
    (airptp_daemon_bind_error fe fg w).hdl = none
      ∧ (airptp_daemon_bind_error fe fg w).world.open_fds = base := by
  unfold airptp_daemon_bind_error
  refine ⟨rfl, ?_⟩
  rcases h with ⟨h1, h2, h3⟩ | ⟨h1, h2, h3, h4⟩ | ⟨h1, h2, h3, h4, h5⟩
  · have a : ¬ fe ≥ 0 := by omega
    have b : ¬ fg ≥ 0 := by omega
    simp only [a, b, if_false]
    exact h3
  · have b : ¬ fg ≥ 0 := by omega
    simp only [ge_iff_le, h1, b, if_true, if_false, World.close, h4]
    exact filter_ne_cons_self fe base h2
  · have hne : fg ≠ fe := fun e => h4 (e ▸ List.mem_cons_self _ _)
    have hgb : fg ∉ base := fun hm => h4 (List.mem_cons_of_mem _ hm)
    simp only [ge_iff_le, h1, h3, if_true, World.close, h5]
    rw [List.filter_cons_of_pos (by simpa using hne), filter_ne_cons_self fe base h2,
      filter_ne_cons_self fg base hgb]

/-- When both address resolutions succeed or report their failure by a negative code,
`airptp_daemon_bind` returns, for all outcomes of `socket`, `fcntl`, `setsockopt`, `bind`
and `calloc`. When it returns no handle, the open descriptors are exactly those open
before the call. When it returns a handle, exactly two new descriptors are open on top
of the previous ones; they are distinct, are the handle's event-port and general-port
sockets, are bound to ports 319 and 320, and the handle has role OWNER and state
PORTS_BOUND. -/
theorem bind_atomic_when_resolution_reported (env : BindEnv) (w : World)
    (he : env.event.getaddrinfo_ret ≤ 0) (hg : env.general.getaddrinfo_ret ≤ 0) :
    ∃ r, airptp_daemon_bind env w = some r
      ∧ (r.hdl = none → r.world.open_fds = w.open_fds)
      ∧ ∀ h, r.hdl = some h →
          r.world.open_fds = h.daemon.general_svc.fd :: h.daemon.event_svc.fd :: w.open_fds
            ∧ h.daemon.event_svc.fd ∉ w.open_fds
            ∧ h.daemon.general_svc.fd ∉ w.open_fds
            ∧ h.daemon.event_svc.fd ≠ h.daemon.general_svc.fd
            ∧ (h.daemon.event_svc.fd, PTP_EVENT_PORT) ∈ r.world.bound
            ∧ (h.daemon.general_svc.fd, PTP_GENERAL_PORT) ∈ r.world.bound
            ∧ h.is_daemon = true ∧ h.state = airptp_state.PORTS_BOUND := by
  obtain ⟨e, hE, hes, _⟩ := net_bind_spec env.event PTP_EVENT_PORT w he
  unfold airptp_daemon_bind
  rw [hE]
  simp only []
  rcases hes with ⟨e1, e2⟩ | ⟨e1, e2, e3, e4⟩
  · have hlt : e.fd < 0 := by omega
    rw [if_pos hlt]
    refine ⟨_, rfl, fun _ => ?_, fun h hh => ?_⟩
    · exact (bind_error_open_fds w.open_fds e.fd (-1) e.world
        (Or.inl ⟨hlt, by norm_num, e2⟩)).2
    · simp [airptp_daemon_bind_error] at hh
  · have hn : ¬ e.fd < 0 := by omega
    rw [if_neg hn]
    obtain ⟨g, hG, hgs, hgb⟩ := net_bind_spec env.general PTP_GENERAL_PORT e.world hg
    rw [hG]
    simp only []
    rcases hgs with ⟨g1, g2⟩ | ⟨g1, g2, g3, g4⟩
    · have hlt : g.fd < 0 := by omega
      rw [if_pos hlt]
      refine ⟨_, rfl, fun _ => ?_, fun h hh => ?_⟩
      · exact (bind_error_open_fds w.open_fds e.fd g.fd g.world
          (Or.inr (Or.inl ⟨e1, e2, hlt, by rw [g2, e3]⟩))).2
      · simp [airptp_daemon_bind_error] at hh
    · have hgn : ¬ g.fd < 0 := by omega
      rw [if_neg hgn]
      cases hc : env.calloc_ok
      · simp only [Bool.not_false, if_true]
        refine ⟨_, rfl, fun _ => ?_, fun h hh => ?_⟩
        · exact (bind_error_open_fds w.open_fds e.fd g.fd g.world
            (Or.inr (Or.inr ⟨e1, e2, g1, by rw [← e3]; exact g2, by rw [g3, e3]⟩))).2
        · simp [airptp_daemon_bind_error] at hh
      · simp only [Bool.not_true, Bool.false_eq_true, if_false]
        refine ⟨_, rfl, fun hh => by simp at hh, fun h hh => ?_⟩
        simp only [Option.some.injEq] at hh
        subst hh
        rw [e3] at g2 g3
        refine ⟨g3, e2, fun hm => g2 (List.mem_cons_of_mem _ hm), ?_, ?_, g4, rfl, rfl⟩
        · intro heq
          have heq2 : e.fd = g.fd := heq
          exact g2 (heq2 ▸ List.mem_cons_self _ _)
        · exact hgb _ e4 (by rw [e3]; exact List.mem_cons_self _ _)

/-- After a failure of the first `getaddrinfo` reported by a positive code,
`airptp_daemon_bind` is undefined, whatever the other outcomes are. -/
theorem bind_undefined_on_positive_code (env : BindEnv) (w : World)
    (h : 0 < env.event.getaddrinfo_ret) : airptp_daemon_bind env w = none := by
  unfold airptp_daemon_bind
  rw [net_bind_undefined env.event PTP_EVENT_PORT w h]

/-- C8 fails on the code: `getaddrinfo` for the event port fails with the positive
code 6 (`EAI_MEMORY` on macOS and the BSDs) and leaves `servinfo` uninitialised; the test
`ret < 0` of `net_bind` does not see the failure, the loop walks the uninitialised
pointer, and neither `net_bind` nor `airptp_daemon_bind` has a defined outcome: no
failure is returned and nothing is unwound. The same failure reported by a negative
code (glibc) is handled: `net_bind` returns -1 with nothing opened. -/
theorem bind_walks_uninitialised_servinfo :
    resolution_fails_env.event.getaddrinfo_ret = 6
      ∧ net_bind resolution_fails_env.event PTP_EVENT_PORT sample_world = none
      ∧ airptp_daemon_bind resolution_fails_env sample_world = none
      ∧ net_bind { getaddrinfo_ret := -10, servinfo := [] } PTP_EVENT_PORT sample_world
          = some { fd := -1, world := sample_world } := by
  decide

/-! ### Helper lemmas: `daemon_stop` -/

/-- The socket descriptors are where they were after `run_stop` and `exit_cb`, and the
event base is not touched. -/
theorem run_stop_exit_cb_fields (d : airptp_daemon) (fd : Int) (w : World) :
    (run_stop (exit_cb d w).1 fd (exit_cb d w).2).1.event_svc.fd = d.event_svc.fd
      ∧ (run_stop (exit_cb d w).1 fd (exit_cb d w).2).1.general_svc.fd = d.general_svc.fd
      ∧ (run_stop (exit_cb d w).1 fd (exit_cb d w).2).1.evbase = d.evbase
      ∧ (run_stop (exit_cb d w).1 fd (exit_cb d w).2).1.is_running = false :=
  ⟨rfl, rfl, rfl, rfl⟩

/-- What a returning `pthread_join` leaves: same sockets and event base in the daemon
structure, a worker that is not in the event loop, a log that continues the old one. -/
theorem pthread_join_spec (d : airptp_daemon) (w : World) (r : DaemonResult)
    (h : pthread_join d w = some r) :
    r.daemon.event_svc.fd = d.event_svc.fd
      ∧ r.daemon.general_svc.fd = d.general_svc.fd
      ∧ r.daemon.evbase = d.evbase
      ∧ (∀ fd, r.world.worker ≠ Worker.looping fd)
      ∧ LogExtends w r.world := by
  unfold pthread_join at h
  cases hw : w.worker with
  | looping shm_fd =>
    simp only [hw] at h
    split at h
    · exact absurd h (by simp)
    · simp only [Option.some.injEq] at h
      subst h
      refine ⟨rfl, rfl, rfl, fun fd => by simp [World.log], ?_⟩
      have h1 : LogExtends w (exit_cb d w).2 := ⟨[Call.read d.exit_pipe.1], rfl⟩
      have h2 := logExtends_run_stop (exit_cb d w).1 shm_fd (exit_cb d w).2
      exact (h1.trans h2).trans ⟨[Call.pthread_join], rfl⟩
  | exited =>
    simp only [hw, Option.some.injEq] at h
    subst h
    exact ⟨rfl, rfl, rfl, fun fd => by simp [World.log], ⟨[Call.pthread_join], rfl⟩⟩
  | none =>
    simp only [hw, Option.some.injEq] at h
    subst h
    exact ⟨rfl, rfl, rfl, fun fd => by simp [World.log, hw], ⟨[Call.pthread_join], rfl⟩⟩
  | joined =>
    simp only [hw, Option.some.injEq] at h
    subst h
    exact ⟨rfl, rfl, rfl, fun fd => by simp [World.log, hw], ⟨[Call.pthread_join], rfl⟩⟩

/-- The join returns when the pipe holds a byte or the worker is not in the loop. -/
theorem pthread_join_returns (d : airptp_daemon) (w : World)
    (h : 0 < w.pipe_bytes ∨ ∀ fd, w.worker ≠ Worker.looping fd) :
    ∃ r, pthread_join d w = some r := by
  unfold pthread_join
  cases hw : w.worker with
  | looping shm_fd =>
    rcases h with h | h
    · have : ¬ w.pipe_bytes = 0 := by omega
      simp [this]
    · exact absurd hw (h shm_fd)
  | exited => simp
  | none => simp
  | joined => simp

/-- The effect of the `cleanup:` part of `daemon_stop`. -/
theorem daemon_stop_cleanup_spec (d : airptp_daemon) (w : World) :
    (daemon_stop_cleanup d w).1 = { d with evbase := event_base_free d.evbase }
      ∧ (daemon_stop_cleanup d w).2.trace
          = w.trace ++ Call.event_base_free ::
              ((if 0 ≤ d.event_svc.fd then [Call.close d.event_svc.fd] else [])
                ++ (if 0 ≤ d.general_svc.fd then [Call.close d.general_svc.fd] else []))
      ∧ (daemon_stop_cleanup d w).2.open_fds
          = (w.open_fds.filter (fun x => ¬ (0 ≤ d.event_svc.fd ∧ x = d.event_svc.fd))).filter
              (fun x => ¬ (0 ≤ d.general_svc.fd ∧ x = d.general_svc.fd))
      ∧ (daemon_stop_cleanup d w).2.shm = w.shm
      ∧ (daemon_stop_cleanup d w).2.pipe_bytes = w.pipe_bytes
      ∧ (daemon_stop_cleanup d w).2.worker = w.worker := by
  unfold daemon_stop_cleanup
  by_cases he : 0 ≤ d.event_svc.fd <;> by_cases hg : 0 ≤ d.general_svc.fd <;>
    simp [he, hg, World.close, World.log]

/-- After the `cleanup:` part, no socket descriptor of the daemon is open. -/
theorem daemon_stop_cleanup_closed (d : airptp_daemon) (w : World) :
    (0 ≤ d.event_svc.fd → d.event_svc.fd ∉ (daemon_stop_cleanup d w).2.open_fds
        ∧ Call.close d.event_svc.fd ∈ (daemon_stop_cleanup d w).2.trace)
      ∧ (0 ≤ d.general_svc.fd → d.general_svc.fd ∉ (daemon_stop_cleanup d w).2.open_fds
        ∧ Call.close d.general_svc.fd ∈ (daemon_stop_cleanup d w).2.trace) := by
  obtain ⟨_, ht, ho, _⟩ := daemon_stop_cleanup_spec d w
  rw [ht, ho]
  constructor
  · intro h
    simp [h, List.mem_filter]
  · intro h
    simp [h, List.mem_filter]

/-- Every returning `daemon_stop` calls `event_base_free`. -/
theorem daemon_stop_trace (env : StopEnv) (d : airptp_daemon) (w : World)
    (r : airptp_daemon × World) (h : daemon_stop env d w = some r) :
    ∃ l, r.2.trace = w.trace ++ l ∧ Call.event_base_free ∈ l := by
  unfold daemon_stop at h
  split at h
  · simp only [Option.some.injEq] at h
    subst h
    exact ⟨_, (daemon_stop_cleanup_spec d w).2.1, List.mem_cons_self _ _⟩
  · simp only [] at h
    split at h
    · exact absurd h (by simp)
    · rename_i j hj
      simp only [Option.some.injEq] at h
      subst h
      obtain ⟨_, _, _, _, l0, hl0⟩ := pthread_join_spec _ _ _ hj
      have hw : ∃ l1, j.world.trace = w.trace ++ l1 := by
        split at hl0
        · exact ⟨Call.write d.exit_pipe.2 :: l0, by rw [hl0]; simp [World.log]⟩
        · exact ⟨Call.write d.exit_pipe.2 :: l0, by rw [hl0]; simp [World.log]⟩
      obtain ⟨l1, hl1⟩ := hw
      have hc := (daemon_stop_cleanup_spec j.daemon j.world).2.1
      generalize (if 0 ≤ j.daemon.event_svc.fd then [Call.close j.daemon.event_svc.fd] else [])
        ++ (if 0 ≤ j.daemon.general_svc.fd then [Call.close j.daemon.general_svc.fd] else [])
        = l2 at hc
      refine ⟨l1 ++ Call.event_base_free :: l2, ?_, by simp⟩
      rw [hc, hl1, List.append_assoc]

/-- The function `daemon_stop` returns when the daemon is not running, when its `write`
puts the byte into the pipe, or when the worker is not in the event loop. -/
theorem daemon_stop_returns (env : StopEnv) (d : airptp_daemon) (w : World)
    (h : d.is_running = false ∨ 0 < env.write_ret ∨ ∀ fd, w.worker ≠ Worker.looping fd) :
    ∃ r, daemon_stop env d w = some r := by
  unfold daemon_stop
  cases hr : d.is_running
  · simp
  · simp only [Bool.not_true, Bool.false_eq_true, if_false]
    have hj : ∃ j, pthread_join d
        (if env.write_ret ≤ 0 then w.log (Call.write d.exit_pipe.2)
         else { (w.log (Call.write d.exit_pipe.2)) with
                pipe_bytes := (w.log (Call.write d.exit_pipe.2)).pipe_bytes + 1 }) = some j := by
      apply pthread_join_returns
      rcases h with h | h | h
      · rw [hr] at h
        exact absurd h (by simp)
      · have : ¬ env.write_ret ≤ 0 := by omega
        simp [this]
      · right
        split <;> exact h
    obtain ⟨j, hj⟩ := hj
    rw [hj]
    exact ⟨_, rfl⟩

/-- What a returning `daemon_stop` leaves: the socket numbers stay in the structure,
the event base has been passed to `event_base_free`, the sockets are closed, and a
daemon that was running has no worker in the event loop any more. -/
theorem daemon_stop_spec (env : StopEnv) (d : airptp_daemon) (w : World)
    (r : airptp_daemon × World) (h : daemon_stop env d w = some r) :
    r.1.event_svc.fd = d.event_svc.fd
      ∧ r.1.general_svc.fd = d.general_svc.fd
      ∧ r.1.evbase = event_base_free d.evbase
      ∧ (0 ≤ d.event_svc.fd → d.event_svc.fd ∉ r.2.open_fds
          ∧ Call.close d.event_svc.fd ∈ r.2.trace)
      ∧ (0 ≤ d.general_svc.fd → d.general_svc.fd ∉ r.2.open_fds
          ∧ Call.close d.general_svc.fd ∈ r.2.trace)
      ∧ (d.is_running = true → ∀ fd, r.2.worker ≠ Worker.looping fd) := by
  unfold daemon_stop at h
  split at h
  · rename_i hr
    simp only [Option.some.injEq] at h
    subst h
    obtain ⟨c1, c2⟩ := daemon_stop_cleanup_closed d w
    refine ⟨rfl, rfl, rfl, c1, c2, ?_⟩
    intro ht
    rw [ht] at hr
    exact absurd hr (by simp)
  · simp only [] at h
    split at h
    · exact absurd h (by simp)
    · rename_i j hj
      simp only [Option.some.injEq] at h
      subst h
      obtain ⟨j1, j2, j3, j4, _⟩ := pthread_join_spec _ _ _ hj
      obtain ⟨c1, c2⟩ := daemon_stop_cleanup_closed j.daemon j.world
      rw [j1] at c1
      rw [j2] at c2
      refine ⟨j1, j2, ?_, c1, c2, ?_⟩
      · show event_base_free j.daemon.evbase = _
        rw [j3]
      · intro _ fd
        rw [(daemon_stop_cleanup_spec j.daemon j.world).2.2.2.2.2]
        exact j4 fd

/-- A successful `daemon_start` marks the daemon as running. -/
theorem daemon_start_ok_running (c : Consts) (env : StartEnv) (d : airptp_daemon)
    (sh : Bool) (cid : Nat) (cb : Option callbacks) (w : World)
    (h : ¬ (daemon_start c env d sh cid cb w).ret < 0) :
    (daemon_start c env d sh cid cb w).daemon.is_running = true := by
  have herr : ∀ (x : airptp_daemon) (v : World), (daemon_start_error x v).ret < 0 := by
    intro x v
    unfold daemon_start_error
    split <;> simp
  unfold daemon_start at h ⊢
  simp only [] at h ⊢
  by_cases h1 : env.msg_handle_init_ret < 0
  · simp only [h1, if_true] at h
    exact absurd (herr _ _) h
  · simp only [h1, if_false] at h ⊢
    by_cases h2 : env.pipe_ret < 0
    · simp only [h2, if_true] at h
      exact absurd (herr _ _) h
    · simp only [h2, if_false] at h ⊢
      cases hok : env.event_base_new_ok
      · simp only [hok, Bool.false_eq_true, if_false, Option.isNone_none, if_true] at h
        exact absurd (herr _ _) h
      · simp only [hok, if_true, Option.isNone_some, Bool.false_eq_true, if_false] at h ⊢
        by_cases h3 : env.pthread_create_ret < 0
        · simp only [h3, if_true] at h
          exact absurd (herr _ _) h
        · simp only [h3, if_false]

/-! ### Start, stop, start on a handle -/

/-- The set-up of `run` leaves the event base alone and ends with a worker that can be
joined: one that sits in the event loop or one that has left `run`. -/
theorem run_evbase_worker (c : Consts) (env : RunEnv) (d : airptp_daemon) (w : World) :
    (run c env d w).1.evbase = d.evbase
      ∧ pthread_join_defined (run c env d w).2 = true := by
  unfold run
  simp only []
  repeat' split
  all_goals exact ⟨rfl, rfl⟩

/-- After a `daemon_start` that returns 0 and whose `pthread_create` returned 0, the
daemon counts as running, its event base has not been released and its worker can be
joined. -/
theorem daemon_start_ok_joinable (c : Consts) (env : StartEnv) (d : airptp_daemon)
    (sh : Bool) (cid : Nat) (cb : Option callbacks) (w : World)
    (h : ¬ (daemon_start c env d sh cid cb w).ret < 0)
    (hthr : env.pthread_create_ret = 0) :
    (daemon_start c env d sh cid cb w).daemon.is_running = true
      ∧ event_base_free_defined (daemon_start c env d sh cid cb w).daemon.evbase = true
      ∧ pthread_join_defined (daemon_start c env d sh cid cb w).world = true := by
  refine ⟨daemon_start_ok_running c env d sh cid cb w h, ?_⟩
  have herr : ∀ (x : airptp_daemon) (v : World), (daemon_start_error x v).ret < 0 := by
    intro x v
    unfold daemon_start_error
    split <;> simp
  have h4 : ¬ env.pthread_create_ret < 0 := by omega
  unfold daemon_start at h ⊢
  simp only [] at h ⊢
  by_cases h1 : env.msg_handle_init_ret < 0
  · simp only [h1, if_true] at h
    exact absurd (herr _ _) h
  · simp only [h1, if_false] at h ⊢
    by_cases h2 : env.pipe_ret < 0
    · simp only [h2, if_true] at h
      exact absurd (herr _ _) h
    · simp only [h2, if_false] at h ⊢
      cases hok : env.event_base_new_ok
      · simp only [hok, Bool.false_eq_true, if_false, Option.isNone_none, if_true] at h
        exact absurd (herr _ _) h
      · simp only [if_true, Option.isNone_some, Bool.false_eq_true, if_false, hthr, h4]
        constructor
        · show event_base_free_defined (run _ _ _ _).1.evbase = true
          rw [(run_evbase_worker _ _ _ _).1]
          rfl
        · exact (run_evbase_worker _ _ _ _).2

/-- On a daemon that counts as running, whose worker can be joined and whose event base
has not been released, every library call of `daemon_stop` is a defined one. -/
theorem daemon_stop_defined_of_live (env : StopEnv) (d : airptp_daemon) (w : World)
    (hr : d.is_running = true) (hj : pthread_join_defined w = true)
    (he : event_base_free_defined d.evbase = true) :
    daemon_stop_defined env d w = true := by
  unfold daemon_stop_defined
  simp only [hr, Bool.not_true, Bool.false_eq_true, if_false, Bool.and_eq_true]
  constructor
  · split <;> exact hj
  · split
    · rfl
    · rename_i r hjoin
      rw [(pthread_join_spec _ _ _ hjoin).2.2.1]
      exact he

/-- The sample owner is the handle `airptp_daemon_bind` returns in the sample world. -/
theorem sample_owner_from_bind :
    airptp_daemon_bind good_bind_env sample_world
      = some { hdl := some sample_owner, world := sample_bound_world } := by
  decide

/-- C6, as stated, fails: the sample owner, obtained from bind, is started (the start
returns 0 and the state is RUNNING) and stopped by a `daemon_stop` all of whose calls are
defined; the state of the handle is then RUNNING, not STOPPED. -/
theorem stop_leaves_handle_running :
    sample_owner.state = airptp_state.PORTS_BOUND
      ∧ sample_started.ret = 0
      ∧ sample_started.hdl.state = airptp_state.RUNNING
      ∧ daemon_stop_defined good_stop_env sample_started.hdl.daemon sample_started.world
          = true
      ∧ (daemon_stop good_stop_env sample_started.hdl.daemon sample_started.world).map
          (fun r => ({ sample_started.hdl with daemon := r.1 } : airptp_handle).state)
          = some airptp_state.RUNNING
      ∧ (daemon_stop good_stop_env sample_started.hdl.daemon sample_started.world).map
          (fun r => ({ sample_started.hdl with daemon := r.1 } : airptp_handle).state)
          ≠ some airptp_state.STOPPED := by
  decide

/-- C6, amended: on a handle obtained from bind (an owner in state PORTS_BOUND) a start
that returns 0 and has created its worker thread moves the state to RUNNING. The stop
that follows, `daemon_stop` on the daemon inside the handle, makes only defined calls
and returns (its write puts the byte into the pipe); it works on the daemon alone, so
the handle it leaves has state RUNNING and the clock identity of before, and
`airptp_free`, the one caller of `daemon_stop`, frees the handle in that state. Every
start after the stop is refused with -1 and changes neither handle nor world. No step
sets STOPPED. -/
theorem start_stop_start_stop_states (c : Consts) (env1 : StartEnv) (senv1 : StopEnv)
    (hdl : airptp_handle) (seed : Nat) (is_shared : Bool) (cb : Option callbacks)
    (w : World)
    (hd : hdl.is_daemon = true) (hs : hdl.state = airptp_state.PORTS_BOUND)
    (hok : (airptp_daemon_start c env1 hdl seed is_shared cb w).ret = 0)
    (hthr : env1.pthread_create_ret = 0)
    (hwr : 0 < senv1.write_ret) :
    (airptp_daemon_start c env1 hdl seed is_shared cb w).hdl.state = airptp_state.RUNNING
      ∧ daemon_stop_defined senv1
          (airptp_daemon_start c env1 hdl seed is_shared cb w).hdl.daemon
          (airptp_daemon_start c env1 hdl seed is_shared cb w).world = true
      ∧ ∃ d2 w2,
          daemon_stop senv1 (airptp_daemon_start c env1 hdl seed is_shared cb w).hdl.daemon
              (airptp_daemon_start c env1 hdl seed is_shared cb w).world = some (d2, w2)
          ∧ ({ (airptp_daemon_start c env1 hdl seed is_shared cb w).hdl with
                daemon := d2 } : airptp_handle).state = airptp_state.RUNNING
          ∧ ({ (airptp_daemon_start c env1 hdl seed is_shared cb w).hdl with
                daemon := d2 } : airptp_handle).clock_id
              = (airptp_daemon_start c env1 hdl seed is_shared cb w).hdl.clock_id
          ∧ airptp_free senv1 (some (airptp_daemon_start c env1 hdl seed is_shared cb w).hdl)
              (airptp_daemon_start c env1 hdl seed is_shared cb w).world
              = some (w2.log Call.free_handle)
          ∧ ∀ (env2 : StartEnv) (seed2 : Nat) (sh2 : Bool) (cb2 : Option callbacks),
              airptp_daemon_start c env2
                  { (airptp_daemon_start c env1 hdl seed is_shared cb w).hdl with
                    daemon := d2 } seed2 sh2 cb2 w2
                = { ret := -1
                    hdl := { (airptp_daemon_start c env1 hdl seed is_shared cb w).hdl with
                             daemon := d2 }
                    world := w2 } := by
  have hstart : (airptp_daemon_start c env1 hdl seed is_shared cb w).hdl.state
        = airptp_state.RUNNING
      ∧ (airptp_daemon_start c env1 hdl seed is_shared cb w).hdl.is_daemon = true
      ∧ (airptp_daemon_start c env1 hdl seed is_shared cb w).hdl.daemon.is_running = true
      ∧ event_base_free_defined
          (airptp_daemon_start c env1 hdl seed is_shared cb w).hdl.daemon.evbase = true
      ∧ pthread_join_defined (airptp_daemon_start c env1 hdl seed is_shared cb w).world
          = true := by
    unfold airptp_daemon_start at hok ⊢
    simp only [hd, hs, Bool.not_true, ne_eq, not_true_eq_false, decide_False, Bool.or_self,
      Bool.false_eq_true, if_false] at hok ⊢
    split at hok
    · exact absurd hok (by simp)
    · rename_i hnn
      rw [if_neg hnn]
      obtain ⟨j1, j2, j3⟩ := daemon_start_ok_joinable _ _ _ _ _ _ _ hnn hthr
      exact ⟨rfl, rfl, j1, j2, j3⟩
  obtain ⟨hst, hdm, hrun, hev, hjn⟩ := hstart
  refine ⟨hst, ?_, ?_⟩
  · exact daemon_stop_defined_of_live _ _ _ hrun hjn hev
  · generalize airptp_daemon_start c env1 hdl seed is_shared cb w = s1 at hst hdm hrun ⊢
    obtain ⟨r, hr⟩ := daemon_stop_returns senv1 s1.hdl.daemon s1.world (Or.inr (Or.inl hwr))
    refine ⟨r.1, r.2, hr, hst, rfl, ?_, ?_⟩
    · simp [airptp_free, hdm, hr]
    · intro env2 seed2 sh2 cb2
      unfold airptp_daemon_start
      simp [hst]

/-- C6, amended, on the sample owner: the state after the start is RUNNING, the stop
makes only defined calls and returns, and a start after it is refused. -/
theorem start_stop_start_stop_states_witness :
    sample_started.hdl.state = airptp_state.RUNNING
      ∧ daemon_stop_defined good_stop_env sample_started.hdl.daemon sample_started.world
          = true
      ∧ ∃ d2 w2, daemon_stop good_stop_env sample_started.hdl.daemon sample_started.world
            = some (d2, w2)
          ∧ airptp_daemon_start sample_consts good_start_env
              { sample_started.hdl with daemon := d2 } 2 true none w2
            = { ret := -1, hdl := { sample_started.hdl with daemon := d2 }, world := w2 } :=
  have h := start_stop_start_stop_states sample_consts good_start_env good_stop_env
    sample_owner 1 true none sample_bound_world (by decide) (by decide) (by decide)
    (by decide) (by decide)
  ⟨h.1, h.2.1, h.2.2.elim fun d2 e => e.elim fun w2 e2 =>
    ⟨d2, w2, e2.1, e2.2.2.2.2 good_start_env 2 true none⟩⟩

/-! ### Release of an observer handle -/

/-- Every handle `airptp_daemon_find` returns is an observer in state RUNNING. -/
theorem find_handle_observer (c : Consts) (env : FindEnv) (w : World) (h : airptp_handle)
    (hf : (airptp_daemon_find c env w).hdl = some h) :
    h.is_daemon = false ∧ h.state = airptp_state.RUNNING := by
  unfold airptp_daemon_find at hf
  cases hs : w.shm with
  | none => simp [hs] at hf
  | some rec =>
    simp only [hs] at hf
    split_ifs at hf
    all_goals try simp at hf
    exact hf ▸ ⟨rfl, rfl⟩

/-- C7: `airptp_free` on a handle returned by `airptp_daemon_find` only frees the
handle: the world afterwards is the one before with the single log entry `free_handle`,
so no `write` to a control channel, no `pthread_join`, no `close`, no `shm_unlink`
happened, the same descriptors are open and the beacon region is in place; `daemon_stop`
was not called, since every returning call of it logs `event_base_free`. On a null
handle `airptp_free` leaves the world as it is. -/
theorem free_observer_leaves_daemon_alone (c : Consts) (fenv : FindEnv) (w0 : World)
    (env : StopEnv) (h : airptp_handle) (w : World)
    (hf : (airptp_daemon_find c fenv w0).hdl = some h) :
    airptp_free env (some h) w = some (w.log Call.free_handle)
      ∧ (w.log Call.free_handle).trace = w.trace ++ [Call.free_handle]
      ∧ (w.log Call.free_handle).open_fds = w.open_fds
      ∧ (w.log Call.free_handle).bound = w.bound
      ∧ (w.log Call.free_handle).shm = w.shm
      ∧ (w.log Call.free_handle).pipe_bytes = w.pipe_bytes
      ∧ (w.log Call.free_handle).worker = w.worker
      ∧ airptp_free env none w = some w
      ∧ ∀ (d : airptp_daemon) (r : airptp_daemon × World), daemon_stop env d w = some r →
          ∃ l, r.2.trace = w.trace ++ l ∧ Call.event_base_free ∈ l := by
  obtain ⟨hobs, _⟩ := find_handle_observer c fenv w0 h hf
  refine ⟨?_, rfl, rfl, rfl, rfl, rfl, rfl, rfl, ?_⟩
  · simp [airptp_free, hobs]
  · intro d r hr
    exact daemon_stop_trace env d w r hr

/-- C7, on the observer found on a host whose beacon was refreshed at 1000, read at
1001, and released while that beacon is in place: the release logs `free_handle` and
nothing else. -/
theorem free_observer_leaves_daemon_alone_witness :
    airptp_free good_stop_env (some sample_observer) (world_with_beacon sample_record)
      = some ((world_with_beacon sample_record).log Call.free_handle) :=
  (free_observer_leaves_daemon_alone sample_consts (find_env_at 1001)
    (world_with_beacon sample_record) good_stop_env sample_observer
    (world_with_beacon sample_record) (by decide)).1

/-! ### Repeated stop, and the sockets after a stop -/

/-- On a Daemon Core with `is_running` false, `daemon_stop` skips the signal/join step:
it returns having logged only `event_base_free` and a `close` for each non-negative
socket descriptor, with the control pipe, the worker and the beacon region as before. -/
theorem daemon_stop_not_running (env : StopEnv) (d : airptp_daemon) (w : World)
    (h : d.is_running = false) :
    ∃ w1, daemon_stop env d w = some ({ d with evbase := event_base_free d.evbase }, w1)
      ∧ w1.trace = w.trace ++ Call.event_base_free ::
          ((if 0 ≤ d.event_svc.fd then [Call.close d.event_svc.fd] else [])
            ++ (if 0 ≤ d.general_svc.fd then [Call.close d.general_svc.fd] else []))
      ∧ w1.pipe_bytes = w.pipe_bytes ∧ w1.worker = w.worker ∧ w1.shm = w.shm := by
  obtain ⟨c1, c2, _, c4, c5, c6⟩ := daemon_stop_cleanup_spec d w
  refine ⟨(daemon_stop_cleanup d w).2, ?_, c2, c5, c6, c4⟩
  have hn : (!d.is_running) = true := by simp [h]
  unfold daemon_stop
  rw [if_pos hn]
  exact congrArg some (Prod.ext c1 rfl)

/-- C9 fails on the code. (1) The started sample daemon is stopped once, by defined
calls; the stop returns and leaves `is_running` false and the event base released. A
further `daemon_stop` skips write and join but calls `event_base_free` on that same,
already released event base, a double free, and `close` on the already closed sockets 3
and 4: it does release the multiplexer and the descriptors a second time. (2) A daemon
whose worker left the event loop during set-up still has `is_running` true, since only
`exit_cb` clears it: its first stop does write to the pipe and join, `is_running` is
true afterwards as well, and a further stop joins the already joined thread. -/
theorem second_stop_releases_again :
    daemon_stop good_stop_env sample_started.hdl.daemon sample_started.world
        = some sample_stopped
      ∧ daemon_stop_defined good_stop_env sample_started.hdl.daemon sample_started.world
          = true
      ∧ sample_stopped.1.is_running = false
      ∧ sample_stopped.1.evbase = some { free_count := 1 }
      ∧ event_base_free_defined sample_stopped.1.evbase = false
      ∧ daemon_stop_defined good_stop_env sample_stopped.1 sample_stopped.2 = false
      ∧ (daemon_stop good_stop_env sample_stopped.1 sample_stopped.2).map
          (fun r => r.2.trace.drop sample_stopped.2.trace.length)
          = some [Call.event_base_free, Call.close 3, Call.close 4]
      ∧ sample_early_exit.ret = 0
      ∧ sample_early_exit.world.worker = Worker.exited
      ∧ sample_early_exit.hdl.daemon.is_running = true
      ∧ daemon_stop good_stop_env sample_early_exit.hdl.daemon sample_early_exit.world
          = some sample_early_exit_stopped
      ∧ sample_early_exit_stopped.2.trace.drop sample_early_exit.world.trace.length
          = [Call.write 6, Call.pthread_join, Call.event_base_free, Call.close 3,
             Call.close 4]
      ∧ sample_early_exit_stopped.1.is_running = true
      ∧ pthread_join_defined sample_early_exit_stopped.2 = false
      ∧ daemon_stop_defined good_stop_env sample_early_exit_stopped.1
          sample_early_exit_stopped.2 = false
      ∧ (daemon_stop good_stop_env sample_early_exit_stopped.1
          sample_early_exit_stopped.2).map
          (fun r => r.2.trace.drop sample_early_exit_stopped.2.trace.length)
          = some [Call.write 6, Call.pthread_join, Call.event_base_free, Call.close 3,
                  Call.close 4] := by
  decide

/-- C10, as stated, fails: sockets 3 and 4 of the started sample daemon are open and
bound before `daemon_stop` and neither open nor bound after it. -/
theorem stop_closes_the_sample_sockets :
    sample_started.hdl.daemon.event_svc.fd = 3
      ∧ sample_started.hdl.daemon.general_svc.fd = 4
      ∧ 3 ∈ sample_started.world.open_fds ∧ 4 ∈ sample_started.world.open_fds
      ∧ daemon_stop good_stop_env sample_started.hdl.daemon sample_started.world
        = some sample_stopped
      ∧ 3 ∉ sample_stopped.2.open_fds ∧ 4 ∉ sample_stopped.2.open_fds
      ∧ sample_stopped.2.bound = [] := by
  decide

/-- C10, amended: a `daemon_stop` whose daemon is not running, or whose write puts the
byte into the pipe, returns; it has passed the event base to `event_base_free` and has
called `close` on the event-port and general-port sockets (each when not negative), so
that afterwards neither is open, while the daemon structure still holds their
numbers. -/
theorem stop_closes_bound_sockets (env : StopEnv) (d : airptp_daemon) (w : World)
    (h : d.is_running = false ∨ 0 < env.write_ret) :
    ∃ d1 w1, daemon_stop env d w = some (d1, w1)
      ∧ (0 ≤ d.event_svc.fd →
          d.event_svc.fd ∉ w1.open_fds ∧ Call.close d.event_svc.fd ∈ w1.trace)
      ∧ (0 ≤ d.general_svc.fd →
          d.general_svc.fd ∉ w1.open_fds ∧ Call.close d.general_svc.fd ∈ w1.trace)
      ∧ d1.evbase = event_base_free d.evbase
      ∧ d1.event_svc.fd = d.event_svc.fd ∧ d1.general_svc.fd = d.general_svc.fd := by
  have h2 : d.is_running = false ∨ 0 < env.write_ret ∨ ∀ fd, w.worker ≠ Worker.looping fd := by
    rcases h with h | h
    · exact Or.inl h
    · exact Or.inr (Or.inl h)
  obtain ⟨r, hr⟩ := daemon_stop_returns env d w h2
  obtain ⟨s1, s2, s3, s4, s5, _⟩ := daemon_stop_spec env d w r hr
  exact ⟨r.1, r.2, hr, s4, s5, s3, s1, s2⟩

/-- C10, amended, on the started sample daemon: after the stop socket 3 is not open. -/
theorem stop_closes_bound_sockets_witness :
    ∃ d1 w1, daemon_stop good_stop_env sample_started.hdl.daemon sample_started.world
        = some (d1, w1) ∧ (3 : Int) ∉ w1.open_fds :=
  (stop_closes_bound_sockets good_stop_env sample_started.hdl.daemon sample_started.world
    (Or.inr (by decide))).elim fun d1 e => e.elim fun w1 e2 =>
      ⟨d1, w1, e2.1, (e2.2.1 (by decide)).1⟩

/-! ### Thread creation failure -/

/-- When the message gateway, the pipe and the event base are set up and
`pthread_create` returns a positive error number, `daemon_start` does not take its error
path: it returns 0 with `is_running` true, the event base is not released and no worker
thread exists. -/
theorem daemon_start_positive_spawn_error (c : Consts) (env : StartEnv) (d : airptp_daemon)
    (sh : Bool) (cid : Nat) (cb : Option callbacks) (w : World)
    (h1 : ¬ env.msg_handle_init_ret < 0) (h2 : ¬ env.pipe_ret < 0)
    (h3 : env.event_base_new_ok = true) (h4 : 0 < env.pthread_create_ret) :
    (daemon_start c env d sh cid cb w).ret = 0
      ∧ (daemon_start c env d sh cid cb w).daemon.is_running = true
      ∧ (daemon_start c env d sh cid cb w).daemon.evbase = some { free_count := 0 }
      ∧ (daemon_start c env d sh cid cb w).world.worker = w.worker := by
  have h5 : ¬ env.pthread_create_ret = 0 := by omega
  have h6 : ¬ env.pthread_create_ret < 0 := by omega
  unfold daemon_start
  simp [h1, h2, h3, h5, h6, World.log, World.open_fd]

/-- C11 fails on the code: `pthread_create` returns the error number 11 and creates no
thread, yet `daemon_start` returns 0 with `is_running` true and the event base not
released, and `airptp_daemon_start` returns 0 with the handle in state RUNNING. -/
theorem spawn_failure_reported_as_success :
    spawn_fails_env.pthread_create_ret = 11
      ∧ (daemon_start sample_consts spawn_fails_env sample_owner.daemon true
          0xFFFF000000000001 (some callbacks.dummy_cb) sample_bound_world).ret = 0
      ∧ (daemon_start sample_consts spawn_fails_env sample_owner.daemon true
          0xFFFF000000000001 (some callbacks.dummy_cb) sample_bound_world).daemon.is_running
          = true
      ∧ (daemon_start sample_consts spawn_fails_env sample_owner.daemon true
          0xFFFF000000000001 (some callbacks.dummy_cb) sample_bound_world).daemon.evbase
          = some { free_count := 0 }
      ∧ (daemon_start sample_consts spawn_fails_env sample_owner.daemon true
          0xFFFF000000000001 (some callbacks.dummy_cb) sample_bound_world).world.worker
          = Worker.none
      ∧ (airptp_daemon_start sample_consts spawn_fails_env sample_owner 1 true none
          sample_bound_world).ret = 0
      ∧ (airptp_daemon_start sample_consts spawn_fails_env sample_owner 1 true none
          sample_bound_world).hdl.state = airptp_state.RUNNING := by
  decide

/-! ### Slave-count gating of the message timers -/

/-- C12: each of the handlers `send_announce_cb`, `send_signaling_cb` and `send_sync_cb`,
fired with slave count 0, returns daemon and world as they are: nothing is sent and no
timer is rescheduled. Fired with a non-zero slave count it makes exactly one call, its
own send call, and then passes its own timer to `event_add` with that timer's interval
(milliseconds split into seconds and microseconds), so that a non-`NULL` timer is
pending with that timeout; the other two timers are as the send call left them. -/
theorem message_timers_gated_on_slave_count (c : Consts) (gw : Gateway)
    (d : airptp_daemon) (w : World) :
    (d.num_slaves = 0 →
        send_announce_cb c gw d w = (d, w)
          ∧ send_signaling_cb c gw d w = (d, w)
          ∧ send_sync_cb c gw d w = (d, w))
      ∧ (d.num_slaves ≠ 0 →
          ((send_announce_cb c gw d w).2.trace = w.trace ++ [Call.msg_announce_send]
            ∧ (send_announce_cb c gw d w).1.send_announce_timer
                = event_add (gw.msg_announce_send d).send_announce_timer
                    (some { tv_sec := c.AIRPTP_INTERVAL_MS_ANNOUNCE / 1000
                            tv_usec := (c.AIRPTP_INTERVAL_MS_ANNOUNCE % 1000) * 1000 })
            ∧ (send_announce_cb c gw d w).1.send_signaling_timer
                = (gw.msg_announce_send d).send_signaling_timer
            ∧ (send_announce_cb c gw d w).1.send_sync_timer
                = (gw.msg_announce_send d).send_sync_timer)
          ∧ ((send_signaling_cb c gw d w).2.trace = w.trace ++ [Call.msg_signaling_send]
            ∧ (send_signaling_cb c gw d w).1.send_signaling_timer
                = event_add (gw.msg_signaling_send d).send_signaling_timer
                    (some { tv_sec := c.AIRPTP_INTERVAL_MS_SIGNALING / 1000
                            tv_usec := (c.AIRPTP_INTERVAL_MS_SIGNALING % 1000) * 1000 })
            ∧ (send_signaling_cb c gw d w).1.send_announce_timer
                = (gw.msg_signaling_send d).send_announce_timer
            ∧ (send_signaling_cb c gw d w).1.send_sync_timer
                = (gw.msg_signaling_send d).send_sync_timer)
          ∧ ((send_sync_cb c gw d w).2.trace = w.trace ++ [Call.msg_sync_send]
            ∧ (send_sync_cb c gw d w).1.send_sync_timer
                = event_add (gw.msg_sync_send d).send_sync_timer
                    (some { tv_sec := c.AIRPTP_INTERVAL_MS_SYNC / 1000
                            tv_usec := (c.AIRPTP_INTERVAL_MS_SYNC % 1000) * 1000 })
            ∧ (send_sync_cb c gw d w).1.send_announce_timer
                = (gw.msg_sync_send d).send_announce_timer
            ∧ (send_sync_cb c gw d w).1.send_signaling_timer
                = (gw.msg_sync_send d).send_signaling_timer)
          ∧ ∀ e tv, event_add (some e) (some tv) = some { e with pending := some (some tv) }) := by
  constructor
  · intro h
    simp [send_announce_cb, send_signaling_cb, send_sync_cb, h]
  · intro h
    refine ⟨?_, ?_, ?_, fun e tv => rfl⟩
    · unfold send_announce_cb
      rw [if_neg h]
      exact ⟨rfl, rfl, rfl, rfl⟩
    · unfold send_signaling_cb
      rw [if_neg h]
      exact ⟨rfl, rfl, rfl, rfl⟩
    · unfold send_sync_cb
      rw [if_neg h]
      exact ⟨rfl, rfl, rfl, rfl⟩

/-- C12, on the started sample daemon with a gateway that leaves the structure alone:
with no slave the announce handler changes nothing; with two slaves the sync handler
logs one `msg_sync_send` and leaves the sync timer pending after 0 s 125000 us, the
announce timer not pending. -/
theorem message_timers_gated_on_slave_count_witness :
    send_announce_cb sample_consts quiet_gateway sample_started.hdl.daemon
        sample_started.world = (sample_started.hdl.daemon, sample_started.world)
      ∧ (send_sync_cb sample_consts quiet_gateway sample_daemon_two_slaves
          sample_started.world).2.trace
          = sample_started.world.trace ++ [Call.msg_sync_send]
      ∧ (send_sync_cb sample_consts quiet_gateway sample_daemon_two_slaves
          sample_started.world).1.send_sync_timer
          = some { pending := some (some { tv_sec := 0, tv_usec := 125000 }), freed := false }
      ∧ (send_sync_cb sample_consts quiet_gateway sample_daemon_two_slaves
          sample_started.world).1.send_announce_timer
          = some { pending := none, freed := false } :=
  have h0 := (message_timers_gated_on_slave_count sample_consts quiet_gateway
    sample_started.hdl.daemon sample_started.world).1 (by decide)
  have h2 := (message_timers_gated_on_slave_count sample_consts quiet_gateway
    sample_daemon_two_slaves sample_started.world).2 (by decide)
  ⟨h0.1, h2.2.2.1.1, h2.2.2.1.2.1.trans (by decide), h2.2.2.1.2.2.1.trans (by decide)⟩

/-! ### What a failed start leaves behind -/

/-- When the pipe has been created and `event_base_new` fails, `daemon_start` returns -1
after the calls `msg_handle_init`, `pipe` and `event_base_new` only: the two descriptors
of the pipe stay open on top of the previous ones. -/
theorem daemon_start_failure_keeps_pipe (c : Consts) (env : StartEnv) (d : airptp_daemon)
    (sh : Bool) (cid : Nat) (cb : Option callbacks) (w : World)
    (h1 : ¬ env.msg_handle_init_ret < 0) (h2 : ¬ env.pipe_ret < 0)
    (h3 : env.event_base_new_ok = false) :
    (daemon_start c env d sh cid cb w).ret = -1
      ∧ (daemon_start c env d sh cid cb w).world.open_fds
          = lowest_free (lowest_free w.open_fds :: w.open_fds)
              :: lowest_free w.open_fds :: w.open_fds
      ∧ (daemon_start c env d sh cid cb w).world.trace
          = w.trace ++ [Call.msg_handle_init, Call.pipe, Call.event_base_new] := by
  unfold daemon_start
  simp [h1, h2, h3, daemon_start_error, World.log, World.open_fd]

/-- C13 fails on the code: with descriptors 0 to 4 open, `daemon_start` creates the
control pipe on descriptors 5 and 6, `event_base_new` fails, and the call returns -1
having made no `close`: descriptors 5 and 6 are still open, so the open descriptors
after the failed start are not those before it. The facade returns -1 with the state
still PORTS_BOUND. -/
theorem failed_start_leaves_pipe_open :
    evbase_fails_env.event_base_new_ok = false
      ∧ sample_bound_world.open_fds = [4, 3, 0, 1, 2]
      ∧ (daemon_start sample_consts evbase_fails_env sample_owner.daemon true
          0xFFFF000000000001 (some callbacks.dummy_cb) sample_bound_world).ret = -1
      ∧ (daemon_start sample_consts evbase_fails_env sample_owner.daemon true
          0xFFFF000000000001 (some callbacks.dummy_cb) sample_bound_world).daemon.exit_pipe
          = (5, 6)
      ∧ (daemon_start sample_consts evbase_fails_env sample_owner.daemon true
          0xFFFF000000000001 (some callbacks.dummy_cb) sample_bound_world).world.open_fds
          = [6, 5, 4, 3, 0, 1, 2]
      ∧ (daemon_start sample_consts evbase_fails_env sample_owner.daemon true
          0xFFFF000000000001 (some callbacks.dummy_cb) sample_bound_world).world.trace
          = sample_bound_world.trace
              ++ [Call.msg_handle_init, Call.pipe, Call.event_base_new]
      ∧ (airptp_daemon_start sample_consts evbase_fails_env sample_owner 1 true none
          sample_bound_world).ret = -1
      ∧ (airptp_daemon_start sample_consts evbase_fails_env sample_owner 1 true none
          sample_bound_world).hdl.state = airptp_state.PORTS_BOUND := by
  decide

/-! ### Whose beacon is destroyed -/

/-- After `daemon_shm_destroy` the name refers to no region, whatever was passed. -/
theorem daemon_shm_destroy_unlinks (p : shm_ptr) (fd : Int) (w : World) :
    (daemon_shm_destroy p fd w).shm = none :=
  rfl

/-- When a region with the name exists, `daemon_shm_create` fails and the region is
gone afterwards. -/
theorem daemon_shm_create_on_existing (c : Consts) (env : ShmCreateEnv) (p : shm_ptr)
    (cid : Nat) (w : World) (h : w.shm.isSome = true) :
    (daemon_shm_create c env p cid w).fd = -1
      ∧ (daemon_shm_create c env p cid w).shm = p
      ∧ (daemon_shm_create c env p cid w).world.shm = none := by
  unfold daemon_shm_create
  simp [h, daemon_shm_destroy]

/-- C14 fails on the code: on a host where another daemon publishes its beacon, (1) the
exclusive create of `daemon_shm_create` fails with -1 and the other daemon's region is
unlinked; (2) a start with `is_shared` true therefore ends the worker and leaves no
region; (3) a daemon started with `is_shared` false leaves the region in place while it
runs and unlinks it when it is stopped. -/
theorem foreign_beacon_is_unlinked :
    foreign_beacon_world.shm = some foreign_record
      ∧ (daemon_shm_create sample_consts good_run_env.shm shm_ptr.MAP_FAILED
          0xFFFF000000000001 foreign_beacon_world).fd = -1
      ∧ (daemon_shm_create sample_consts good_run_env.shm shm_ptr.MAP_FAILED
          0xFFFF000000000001 foreign_beacon_world).world.shm = none
      ∧ (airptp_daemon_start sample_consts good_start_env sample_owner 1 true none
          foreign_beacon_world).world.shm = none
      ∧ (airptp_daemon_start sample_consts good_start_env sample_owner 1 true none
          foreign_beacon_world).world.worker = Worker.exited
      ∧ (airptp_daemon_start sample_consts good_start_env sample_owner 1 false none
          foreign_beacon_world).hdl.daemon.is_shared = false
      ∧ (airptp_daemon_start sample_consts good_start_env sample_owner 1 false none
          foreign_beacon_world).world.shm = some foreign_record
      ∧ (daemon_stop good_stop_env
          (airptp_daemon_start sample_consts good_start_env sample_owner 1 false none
            foreign_beacon_world).hdl.daemon
          (airptp_daemon_start sample_consts good_start_env sample_owner 1 false none
            foreign_beacon_world).world).map (fun r => r.2.shm) = some none := by
  decide

/-! ### The beacon refresh handler -/

/-- The set-up of `run` leaves `daemon->info` alone when `is_shared` is false. -/
theorem run_private_info (c : Consts) (env : RunEnv) (d : airptp_daemon) (w : World)
    (h : d.is_shared = false) : (run c env d w).1.info = d.info := by
  unfold run
  simp only [h, Bool.false_eq_true, if_false]
  repeat' split
  all_goals rfl

/-- A daemon started with `is_shared` false (past the creation of the pipe) holds
`MAP_FAILED` in `info`, and the refresh handler faults on it in every world. -/
theorem private_daemon_refresh_faults (c : Consts) (env : StartEnv) (d : airptp_daemon)
    (cid : Nat) (cb : Option callbacks) (w : World) (now : Int)
    (h1 : ¬ env.msg_handle_init_ret < 0) (h2 : ¬ env.pipe_ret < 0) :
    (daemon_start c env d false cid cb w).daemon.info = shm_ptr.MAP_FAILED
      ∧ ∀ w2, shm_update_cb now (daemon_start c env d false cid cb w).daemon w2 = none := by
  have hinfo : (daemon_start c env d false cid cb w).daemon.info = shm_ptr.MAP_FAILED := by
    unfold daemon_start
    simp only [h1, h2, if_false]
    cases hok : env.event_base_new_ok
    · simp [daemon_start_error]
    · simp only [if_true, Option.isNone_some, Bool.false_eq_true, if_false]
      by_cases h3 : env.pthread_create_ret = 0
      · have h4 : ¬ env.pthread_create_ret < 0 := by omega
        simp only [h3, h4, if_true, if_false]
        exact run_private_info _ _ _ _ rfl
      · simp only [h3, if_false]
        unfold daemon_start_error
        repeat' split
        all_goals rfl
  refine ⟨hinfo, fun w2 => ?_⟩
  unfold shm_update_cb
  rw [hinfo]

/-- Through a mapping, the refresh handler changes the time stamp of the region and
nothing else in it. -/
theorem shm_update_cb_mapped (now : Int) (d : airptp_daemon) (w : World)
    (r : airptp_shm_struct) (h : d.info = shm_ptr.mapped) (hr : w.shm = some r) :
    ∃ d1 w1, shm_update_cb now d w = some (d1, w1)
      ∧ w1.shm = some { version_major := r.version_major, version_minor := r.version_minor,
                        clock_id := r.clock_id, ts := now } := by
  unfold shm_update_cb
  rw [h]
  exact ⟨_, _, rfl, by simp [hr]⟩

/-- C15 fails on the code: the sample owner is started with `is_shared` false; the start
succeeds, the worker sits in the event loop with the refresh timer pending after 5
seconds, and `daemon->info` is still `MAP_FAILED`; when `shm_update_cb` fires, its store
through that pointer faults. -/
theorem refresh_faults_without_beacon :
    sample_private_started.ret = 0
      ∧ sample_private_started.hdl.daemon.is_shared = false
      ∧ sample_private_started.world.worker = Worker.looping (-1)
      ∧ sample_private_started.hdl.daemon.shm_update_timer
          = some { pending := some (some { tv_sec := 5, tv_usec := 0 }), freed := false }
      ∧ sample_private_started.hdl.daemon.info = shm_ptr.MAP_FAILED
      ∧ shm_update_cb 1005 sample_private_started.hdl.daemon sample_private_started.world
          = none := by
  decide

end AirPtp
